import Mathlib

/-!
# Desktop-entry links (`obt/link.c`)

A shallow embedding of `obt_link_from_ddfile`, `obt_link_ref` and
`obt_link_unref`, and the properties of the link builder proved on it.

Conventions of the embedding:

* a `gchar *` is an `Option String` (`none` is `NULL`);
* a `GHashTable` keyed by strings is a function from keys to optional values,
  `g_hash_table_lookup` being application;
* a `guint` is a `Nat`; the reference count wraps modulo `2 ^ 32`;
* the parsed table is heap state that the builder changes through pointers
  (`v->value.string = NULL`), so the builder returns, next to the link, the
  table as the call leaves it and whether it was destroyed;
* `obt_ddparse_file` and `obt_paths_try_exec` live in other files and are
  parameters of the builder.
-/

set_option autoImplicit false

/-! ## The parsed entry -/

/-- Modelled from the spec: the value union of `ObtDDParseValue`, declared in
`obt/ddparse.h`, which is not among the sources. One field per member that
`link.c` reads: `string` (a `gchar *`, `NULL` once stolen), `boolean`,
`enumerable` (the `Type` tag) and `environments` (a bit mask). `link.c` reads
every key through one member only, so the storage the members share is never
observed by it. -/
structure ObtDDParseValue where
  string : Option String
  boolean : Bool
  enumerable : Nat
  environments : Nat
  deriving DecidableEq, Repr

/-- A `GHashTable` with string keys. -/
abbrev GHashTable (V : Type) : Type := String → Option V

/-- The call `g_hash_table_lookup(t, k)`: `none` is the `NULL` result. -/
def g_hash_table_lookup {V : Type} (t : GHashTable V) (k : String) : Option V := t k

/-- Modelled from the spec: `ObtDDParseGroup`, declared in `obt/ddparse.h`,
which is not among the sources: a group holds the table of its keys. -/
structure ObtDDParseGroup where
  key_hash : GHashTable ObtDDParseValue

/-- Modelled from the spec: `obt_ddparse_group_keys`, defined in
`obt/ddparse.c`, which is not among the sources: the key table of a group. -/
def obt_ddparse_group_keys (g : ObtDDParseGroup) : GHashTable ObtDDParseValue := g.key_hash

/-- The table of groups that `obt_ddparse_file` returns. -/
abbrev Groups : Type := GHashTable ObtDDParseGroup

/-- The store `v->value.string = NULL` through the pointer `v` that the lookup
of key `k` returned: the value under `k` loses its string, every other member
and every other key is left alone. -/
def steal_string (keys : GHashTable ObtDDParseValue) (k : String) :
    GHashTable ObtDDParseValue :=
  fun k' => if k' = k then (keys k').map (fun v => { v with string := none }) else keys k'

/-- The table of groups after the key table of group `name` became `keys`
(the key table is reached through the pointer `g`, so a store into it is a
store into the groups). -/
def store_keys (groups : Groups) (name : String) (keys : GHashTable ObtDDParseValue) :
    Groups :=
  fun n => if n = name then (groups n).map (fun _ => { key_hash := keys }) else groups n

/-- The entry without key `k` in its group `name` (used to state what a key
contributes, by comparing with the entry that lacks it). -/
def remove_key (groups : Groups) (name k : String) : Groups :=
  fun n => if n = name then
      (groups n).map (fun g => { key_hash := fun k' => if k' = k then none else g.key_hash k' })
    else groups n

/-! ## The link -/

/-- Modelled from the spec: the enumerators of `ObtLinkType`, declared in
`obt/link.h`, which is not among the sources. The kinds are numbered in the
order Application, Url, Directory; the proofs use only that they differ. -/
def OBT_LINK_TYPE_APPLICATION : Nat := 1

/-- Modelled from the spec: see `OBT_LINK_TYPE_APPLICATION`. -/
def OBT_LINK_TYPE_URL : Nat := 2

/-- Modelled from the spec: see `OBT_LINK_TYPE_APPLICATION`. -/
def OBT_LINK_TYPE_DIRECTORY : Nat := 3

/-- Modelled from the spec: `ObtLinkAppStartup`, declared in `obt/link.h`,
which is not among the sources: the three startup-notification policies. -/
inductive ObtLinkAppStartup where
  | OBT_LINK_APP_STARTUP_NO_SUPPORT
  | OBT_LINK_APP_STARTUP_PROTOCOL_SUPPORT
  | OBT_LINK_APP_STARTUP_LEGACY_SUPPORT
  deriving DecidableEq, Repr

/-- The member `app` of the union: `struct _ObtLinkApp`. The field `open_`
is the member `open` (an `ObtLinkAppOpen`, never written, so it keeps the
zero of `g_slice_new0`). -/
structure ObtLinkApp where
  exec : Option String
  wdir : Option String
  term : Bool
  open_ : Nat
  mime : Option (List String)
  startup : ObtLinkAppStartup
  startup_wmclass : Option String
  deriving DecidableEq, Repr

/-- The member `url` of the union: `struct _ObtLinkLink`. -/
structure ObtLinkLink where
  addr : Option String
  deriving DecidableEq, Repr

/-- The union `_ObtLinkData`, by the member the builder writes: `app` for an
application, `url` for a URL, and `dir` (the member without fields) when the
builder writes none and the union stays as `g_slice_new0` zeroed it. -/
inductive ObtLinkData where
  | app (a : ObtLinkApp)
  | url (u : ObtLinkLink)
  | dir
  deriving DecidableEq, Repr

/-- The record `struct _ObtLink`. -/
structure ObtLink where
  ref : Nat
  type : Nat
  name : Option String
  display : Bool
  deleted : Bool
  generic : Option String
  comment : Option String
  icon : Option String
  env_required : Nat
  env_restricted : Nat
  d : ObtLinkData
  deriving DecidableEq, Repr

/-- What a call of `obt_link_from_ddfile` leaves behind: the returned pointer
(`none` is `NULL`), the parsed table as the call left it (`none` when the
parser returned `NULL`), and whether `g_hash_table_destroy` was called on it. -/
structure BuildOutcome where
  link : Option ObtLink
  groups : Option Groups
  destroyed : Bool

/-! ## The builder -/

/-- The statement `link->f = v->value.string, v->value.string = NULL` guarded
by `if ((v = g_hash_table_lookup(keys, k)))`: the string found under `k`
(`NULL` when the key is absent, the field keeping the zero of `g_slice_new0`)
and the key table after the store. -/
def take_string (keys : GHashTable ObtDDParseValue) (k : String) :
    Option String × GHashTable ObtDDParseValue :=
  match g_hash_table_lookup keys k with
  | some v => (v.string, steal_string keys k)
  | none => (none, keys)

/-- Lines 99 to 166 of `obt_link_from_ddfile`: the link built from the key
table once the required keys were found, and the key table after the strings
were stolen. `type` is the value of `Type`; `target` is the pointer of the
same name (the value of `Exec` for an application, of `URL` for a URL, `NULL`
otherwise). The members of the union are collected as the code assigns them
and the record is assembled at the end. -/
def link_fill {ObtPaths : Type} (obt_paths_try_exec : ObtPaths → Option String → Bool)
    (p : ObtPaths) (keys : GHashTable ObtDDParseValue) (type : ObtDDParseValue)
    (target : Option ObtDDParseValue) : ObtLink × GHashTable ObtDDParseValue :=
  let ltype := type.enumerable
  let tstring := target.bind (fun t => t.string)
  let keys :=
    if ltype = OBT_LINK_TYPE_APPLICATION then steal_string keys "Exec"
    else if ltype = OBT_LINK_TYPE_URL then steal_string keys "URL"
    else keys
  let display := true
  let deleted :=
    match g_hash_table_lookup keys "Hidden" with
    | some v => v.boolean
    | none => false
  let display :=
    match g_hash_table_lookup keys "NoDisplay" with
    | some v => !v.boolean
    | none => display
  let generic := take_string keys "GenericName"
  let comment := take_string generic.2 "Comment"
  let icon := take_string comment.2 "Icon"
  let keys := icon.2
  let env_required :=
    match g_hash_table_lookup keys "OnlyShowIn" with
    | some v => v.environments
    | none => 0
  let env_restricted :=
    match g_hash_table_lookup keys "NotShowIn" with
    | some v => v.environments
    | none => 0
  if ltype = OBT_LINK_TYPE_APPLICATION then
    let display :=
      match g_hash_table_lookup keys "TryExec" with
      | some v => display && obt_paths_try_exec p v.string
      | none => display
    let wdir := take_string keys "Path"
    let keys := wdir.2
    let term :=
      match g_hash_table_lookup keys "Terminal" with
      | some v => v.boolean
      | none => false
    let startup :=
      match g_hash_table_lookup keys "StartupNotify" with
      | some v =>
        if v.boolean then ObtLinkAppStartup.OBT_LINK_APP_STARTUP_PROTOCOL_SUPPORT
        else ObtLinkAppStartup.OBT_LINK_APP_STARTUP_NO_SUPPORT
      | none => ObtLinkAppStartup.OBT_LINK_APP_STARTUP_LEGACY_SUPPORT
    ({ ref := 1, type := ltype, name := none, display := display, deleted := deleted,
       generic := generic.1, comment := comment.1, icon := icon.1,
       env_required := env_required, env_restricted := env_restricted,
       d := ObtLinkData.app
         { exec := tstring, wdir := wdir.1, term := term, open_ := 0, mime := none,
           startup := startup, startup_wmclass := none } },
     keys)
  else if ltype = OBT_LINK_TYPE_URL then
    ({ ref := 1, type := ltype, name := none, display := display, deleted := deleted,
       generic := generic.1, comment := comment.1, icon := icon.1,
       env_required := env_required, env_restricted := env_restricted,
       d := ObtLinkData.url { addr := tstring } },
     keys)
  else
    ({ ref := 1, type := ltype, name := none, display := display, deleted := deleted,
       generic := generic.1, comment := comment.1, icon := icon.1,
       env_required := env_required, env_restricted := env_restricted,
       d := ObtLinkData.dir },
     keys)

/-- The function `obt_link_from_ddfile`. Lines 71 to 98 check the group and
the required keys, every failure destroying the table and returning `NULL`;
`link_fill` is the rest. `obt_ddparse_file` (the parser) and
`obt_paths_try_exec` (the probe) are the callees of those names. -/
def obt_link_from_ddfile {ObtPaths : Type}
    (obt_ddparse_file : String → List String → Option Groups)
    (obt_paths_try_exec : ObtPaths → Option String → Bool)
    (ddname : String) (paths : List String) (p : ObtPaths) : BuildOutcome :=
  match obt_ddparse_file ddname paths with
  | none => { link := none, groups := none, destroyed := false }
  | some groups =>
    let failed : BuildOutcome := { link := none, groups := some groups, destroyed := true }
    match g_hash_table_lookup groups "Desktop Entry" with
    | none => failed
    | some g =>
      let keys := obt_ddparse_group_keys g
      match g_hash_table_lookup keys "Type" with
      | none => failed
      | some type =>
        match g_hash_table_lookup keys "Name" with
        | none => failed
        | some _ =>
          let built (target : Option ObtDDParseValue) : BuildOutcome :=
            let r := link_fill obt_paths_try_exec p keys type target
            { link := some r.1, groups := some (store_keys groups "Desktop Entry" r.2),
              destroyed := false }
          if type.enumerable = OBT_LINK_TYPE_APPLICATION then
            match g_hash_table_lookup keys "Exec" with
            | none => failed
            | some target => built (some target)
          else if type.enumerable = OBT_LINK_TYPE_URL then
            match g_hash_table_lookup keys "URL" with
            | none => failed
            | some target => built (some target)
          else built none

/-! ## The reference count -/

/-- The function `obt_link_ref`: `++dd->ref` on a `guint`. -/
def obt_link_ref (dd : ObtLink) : ObtLink :=
  { dd with ref := (dd.ref + 1) % 2 ^ 32 }

/-- The function `obt_link_unref`: `--dd->ref` on a `guint`, then
`g_slice_free` when the count is below 1. The result is the record as the
decrement leaves it and whether it was freed. -/
def obt_link_unref (dd : ObtLink) : ObtLink × Bool :=
  let dd' : ObtLink := { dd with ref := (dd.ref + 2 ^ 32 - 1) % 2 ^ 32 }
  (dd', decide (dd'.ref < 1))

/-! ## Sample entries -/

/-- A value holding the string `s`. -/
def str_value (s : String) : ObtDDParseValue :=
  { string := some s, boolean := false, enumerable := 0, environments := 0 }

/-- A value holding the boolean `b`. -/
def bool_value (b : Bool) : ObtDDParseValue :=
  { string := none, boolean := b, enumerable := 0, environments := 0 }

/-- A value holding the type tag `n`. -/
def enum_value (n : Nat) : ObtDDParseValue :=
  { string := none, boolean := false, enumerable := n, environments := 0 }

/-- The key table listing `kvs` (the first binding of a key counts). -/
def keys_of (kvs : List (String × ObtDDParseValue)) : GHashTable ObtDDParseValue :=
  fun k => (kvs.find? (fun kv => kv.1 == k)).map (fun kv => kv.2)

/-- The entry whose only group is "Desktop Entry", with the keys `kvs`. -/
def entry_of (kvs : List (String × ObtDDParseValue)) : Groups :=
  fun n => if n = "Desktop Entry" then some { key_hash := keys_of kvs } else none

/-- A parser that returns the table `groups` for every file name. -/
def parsed_as (groups : Groups) : String → List String → Option Groups :=
  fun _ _ => some groups

/-- A probe that answers `b` for every path. -/
def probe_const (b : Bool) : Unit → Option String → Bool :=
  fun _ _ => b

/-- An application entry: `Type`, `Name` and `Exec = "/usr/bin/x"`. -/
def sample_app : Groups :=
  entry_of [("Type", enum_value OBT_LINK_TYPE_APPLICATION), ("Name", str_value "X"),
    ("Exec", str_value "/usr/bin/x")]

/-- A URL entry: `Type`, `Name` and `URL = "https://example.org"`. -/
def sample_url : Groups :=
  entry_of [("Type", enum_value OBT_LINK_TYPE_URL), ("Name", str_value "Example"),
    ("URL", str_value "https://example.org")]

/-- A directory entry: `Type` and `Name` only. -/
def sample_dir : Groups :=
  entry_of [("Type", enum_value OBT_LINK_TYPE_DIRECTORY), ("Name", str_value "Games")]

/-- An entry with a group, but not the group "Desktop Entry". -/
def sample_other_group : Groups :=
  fun n => if n = "Desktop Action Edit" then
      some { key_hash := keys_of [("Type", enum_value OBT_LINK_TYPE_APPLICATION),
        ("Name", str_value "X"), ("Exec", str_value "/usr/bin/x")] }
    else none

/-- An application entry without `Name`. -/
def sample_no_name : Groups :=
  entry_of [("Type", enum_value OBT_LINK_TYPE_APPLICATION), ("Exec", str_value "/usr/bin/x"),
    ("Comment", str_value "no name")]

/-- An entry whose `Type` holds 7, which is none of the three kinds. -/
def sample_unknown_type : Groups :=
  entry_of [("Type", enum_value 7), ("Name", str_value "Odd")]

/-- An application entry with `TryExec = "nonexistent"` and no `NoDisplay`. -/
def sample_try_exec : Groups :=
  entry_of [("Type", enum_value OBT_LINK_TYPE_APPLICATION), ("Name", str_value "X"),
    ("Exec", str_value "/usr/bin/x"), ("TryExec", str_value "nonexistent")]

/-- An application entry with `NoDisplay = true`. -/
def sample_no_display : Groups :=
  entry_of [("Type", enum_value OBT_LINK_TYPE_APPLICATION), ("Name", str_value "X"),
    ("Exec", str_value "/usr/bin/x"), ("NoDisplay", bool_value true)]

/-- A probe that finds "/usr/bin/x" and nothing else. -/
def probe_only_x : Unit → Option String → Bool :=
  fun _ path => path == some "/usr/bin/x"

/-- A value holding the environment mask `n`. -/
def env_value (n : Nat) : ObtDDParseValue :=
  { string := none, boolean := false, enumerable := 0, environments := n }

/-- An application entry with `StartupNotify = true`. -/
def sample_startup : Groups :=
  entry_of [("Type", enum_value OBT_LINK_TYPE_APPLICATION), ("Name", str_value "X"),
    ("Exec", str_value "/usr/bin/x"), ("StartupNotify", bool_value true)]

/-- An application entry with every string the builder relocates. -/
def sample_full_app : Groups :=
  entry_of [("Type", enum_value OBT_LINK_TYPE_APPLICATION), ("Name", str_value "X"),
    ("Exec", str_value "/usr/bin/x"), ("GenericName", str_value "Viewer"),
    ("Comment", str_value "Views things"), ("Icon", str_value "x-icon"),
    ("Path", str_value "/tmp"), ("TryExec", str_value "/usr/bin/x")]

/-- A URL entry that also holds the four keys read for applications only, and
an `Exec` key. -/
def sample_url_app_keys : Groups :=
  entry_of [("Type", enum_value OBT_LINK_TYPE_URL), ("Name", str_value "Example"),
    ("URL", str_value "https://example.org"), ("TryExec", str_value "nonexistent"),
    ("Path", str_value "/tmp"), ("Terminal", bool_value true),
    ("StartupNotify", bool_value true), ("Exec", str_value "/usr/bin/x")]

/-- An application entry whose `Comment` is the empty string. -/
def sample_empty_comment : Groups :=
  entry_of [("Type", enum_value OBT_LINK_TYPE_APPLICATION), ("Name", str_value "X"),
    ("Exec", str_value "/usr/bin/x"), ("Comment", str_value "")]

/-- An application entry with `Hidden = true`, `NoDisplay = false` and a
`TryExec` key. -/
def sample_hidden : Groups :=
  entry_of [("Type", enum_value OBT_LINK_TYPE_APPLICATION), ("Name", str_value "X"),
    ("Exec", str_value "/usr/bin/x"), ("Hidden", bool_value true),
    ("NoDisplay", bool_value false), ("TryExec", str_value "nonexistent")]

/-- A directory entry with `OnlyShowIn` = 5 and `NotShowIn` = 2. -/
def sample_env : Groups :=
  entry_of [("Type", enum_value OBT_LINK_TYPE_DIRECTORY), ("Name", str_value "Games"),
    ("OnlyShowIn", env_value 5), ("NotShowIn", env_value 2)]

/-! ## Lemmas on the tables -/

@[simp]
theorem lookup_steal_string_ne (keys : GHashTable ObtDDParseValue) (k k' : String)
    (h : k' ≠ k) :
    g_hash_table_lookup (steal_string keys k) k' = g_hash_table_lookup keys k' := by
  simp [g_hash_table_lookup, steal_string, h]

@[simp]
theorem lookup_steal_string_self (keys : GHashTable ObtDDParseValue) (k : String) :
    g_hash_table_lookup (steal_string keys k) k
      = (g_hash_table_lookup keys k).map (fun v => { v with string := none }) := by
  simp [g_hash_table_lookup, steal_string]

@[simp]
theorem take_string_snd (keys : GHashTable ObtDDParseValue) (k : String) :
    (take_string keys k).2 = steal_string keys k := by
  unfold take_string
  split
  · rfl
  · rename_i h
    funext k'
    by_cases hk : k' = k
    · subst hk
      simp [steal_string, g_hash_table_lookup] at h ⊢
      simp [h]
    · simp [steal_string, hk]

@[simp]
theorem take_string_fst (keys : GHashTable ObtDDParseValue) (k : String) :
    (take_string keys k).1 = (g_hash_table_lookup keys k).bind (fun v => v.string) := by
  unfold take_string
  split <;> simp_all

/-! ## Missing group and missing required keys -/

/-- C1: for every parsed entry without a "Desktop Entry" group, whatever
other groups it holds, the builder returns `NULL`: no link is made, the table
is destroyed as the parser left it. -/
theorem C1_missing_group_fails {ObtPaths : Type}
    (obt_ddparse_file : String → List String → Option Groups)
    (obt_paths_try_exec : ObtPaths → Option String → Bool)
    (ddname : String) (paths : List String) (p : ObtPaths) (groups : Groups)
    (hparse : obt_ddparse_file ddname paths = some groups)
    (hgroup : g_hash_table_lookup groups "Desktop Entry" = none) :
    obt_link_from_ddfile obt_ddparse_file obt_paths_try_exec ddname paths p
      = { link := none, groups := some groups, destroyed := true } := by
  simp [obt_link_from_ddfile, hparse, hgroup]

/-- C1 at an entry whose only group is "Desktop Action Edit". -/
theorem C1_missing_group_fails_witness :
    g_hash_table_lookup sample_other_group "Desktop Entry" = none ∧
    obt_link_from_ddfile (parsed_as sample_other_group) (probe_const true)
      "edit.desktop" [] ()
      = { link := none, groups := some sample_other_group, destroyed := true } :=
  ⟨rfl, C1_missing_group_fails (parsed_as sample_other_group) (probe_const true)
      "edit.desktop" [] () sample_other_group rfl rfl⟩

/-- C2: for every parsed entry whose "Desktop Entry" group lacks `Type` or
lacks `Name`, the builder returns `NULL` whatever the other keys are: no link
is made, the table is destroyed as the parser left it. -/
theorem C2_missing_type_or_name_fails {ObtPaths : Type}
    (obt_ddparse_file : String → List String → Option Groups)
    (obt_paths_try_exec : ObtPaths → Option String → Bool)
    (ddname : String) (paths : List String) (p : ObtPaths) (groups : Groups)
    (g : ObtDDParseGroup)
    (hparse : obt_ddparse_file ddname paths = some groups)
    (hgroup : g_hash_table_lookup groups "Desktop Entry" = some g)
    (hmissing : g_hash_table_lookup (obt_ddparse_group_keys g) "Type" = none ∨
      g_hash_table_lookup (obt_ddparse_group_keys g) "Name" = none) :
    obt_link_from_ddfile obt_ddparse_file obt_paths_try_exec ddname paths p
      = { link := none, groups := some groups, destroyed := true } := by
  rcases hmissing with h | h
  · simp [obt_link_from_ddfile, hparse, hgroup, h]
  · cases hT : g_hash_table_lookup (obt_ddparse_group_keys g) "Type" <;>
      simp [obt_link_from_ddfile, hparse, hgroup, h, hT]

/-- C2 at an application entry that has `Type`, `Exec` and `Comment` but no
`Name`. -/
theorem C2_missing_type_or_name_fails_witness :
    g_hash_table_lookup sample_no_name "Desktop Entry"
      = some { key_hash := keys_of [("Type", enum_value OBT_LINK_TYPE_APPLICATION),
          ("Exec", str_value "/usr/bin/x"), ("Comment", str_value "no name")] } ∧
    obt_link_from_ddfile (parsed_as sample_no_name) (probe_const true) "x.desktop" [] ()
      = { link := none, groups := some sample_no_name, destroyed := true } :=
  ⟨rfl, C2_missing_type_or_name_fails (parsed_as sample_no_name) (probe_const true)
      "x.desktop" [] () sample_no_name _ rfl rfl (Or.inr rfl)⟩

/-! ## The required key of each kind -/

/-- The outcome for an application that has `Type`, `Name` and `Exec`. -/
theorem build_application {ObtPaths : Type}
    (obt_ddparse_file : String → List String → Option Groups)
    (obt_paths_try_exec : ObtPaths → Option String → Bool)
    (ddname : String) (paths : List String) (p : ObtPaths) (groups : Groups)
    (g : ObtDDParseGroup) (type name target : ObtDDParseValue)
    (hparse : obt_ddparse_file ddname paths = some groups)
    (hgroup : g_hash_table_lookup groups "Desktop Entry" = some g)
    (htype : g_hash_table_lookup (obt_ddparse_group_keys g) "Type" = some type)
    (hname : g_hash_table_lookup (obt_ddparse_group_keys g) "Name" = some name)
    (happ : type.enumerable = OBT_LINK_TYPE_APPLICATION)
    (hexec : g_hash_table_lookup (obt_ddparse_group_keys g) "Exec" = some target) :
    obt_link_from_ddfile obt_ddparse_file obt_paths_try_exec ddname paths p
      = { link := some (link_fill obt_paths_try_exec p (obt_ddparse_group_keys g) type
            (some target)).1,
          groups := some (store_keys groups "Desktop Entry"
            (link_fill obt_paths_try_exec p (obt_ddparse_group_keys g) type (some target)).2),
          destroyed := false } := by
  simp [obt_link_from_ddfile, hparse, hgroup, htype, hname, happ, hexec]

/-- The outcome for a URL that has `Type`, `Name` and `URL`. -/
theorem build_url {ObtPaths : Type}
    (obt_ddparse_file : String → List String → Option Groups)
    (obt_paths_try_exec : ObtPaths → Option String → Bool)
    (ddname : String) (paths : List String) (p : ObtPaths) (groups : Groups)
    (g : ObtDDParseGroup) (type name target : ObtDDParseValue)
    (hparse : obt_ddparse_file ddname paths = some groups)
    (hgroup : g_hash_table_lookup groups "Desktop Entry" = some g)
    (htype : g_hash_table_lookup (obt_ddparse_group_keys g) "Type" = some type)
    (hname : g_hash_table_lookup (obt_ddparse_group_keys g) "Name" = some name)
    (hurl : type.enumerable = OBT_LINK_TYPE_URL)
    (haddr : g_hash_table_lookup (obt_ddparse_group_keys g) "URL" = some target) :
    obt_link_from_ddfile obt_ddparse_file obt_paths_try_exec ddname paths p
      = { link := some (link_fill obt_paths_try_exec p (obt_ddparse_group_keys g) type
            (some target)).1,
          groups := some (store_keys groups "Desktop Entry"
            (link_fill obt_paths_try_exec p (obt_ddparse_group_keys g) type (some target)).2),
          destroyed := false } := by
  simp [obt_link_from_ddfile, hparse, hgroup, htype, hname, hurl, haddr,
    OBT_LINK_TYPE_URL, OBT_LINK_TYPE_APPLICATION]

/-- The outcome for an entry that has `Type` and `Name` and is neither an
application nor a URL. -/
theorem build_other {ObtPaths : Type}
    (obt_ddparse_file : String → List String → Option Groups)
    (obt_paths_try_exec : ObtPaths → Option String → Bool)
    (ddname : String) (paths : List String) (p : ObtPaths) (groups : Groups)
    (g : ObtDDParseGroup) (type name : ObtDDParseValue)
    (hparse : obt_ddparse_file ddname paths = some groups)
    (hgroup : g_hash_table_lookup groups "Desktop Entry" = some g)
    (htype : g_hash_table_lookup (obt_ddparse_group_keys g) "Type" = some type)
    (hname : g_hash_table_lookup (obt_ddparse_group_keys g) "Name" = some name)
    (happ : type.enumerable ≠ OBT_LINK_TYPE_APPLICATION)
    (hurl : type.enumerable ≠ OBT_LINK_TYPE_URL) :
    obt_link_from_ddfile obt_ddparse_file obt_paths_try_exec ddname paths p
      = { link := some (link_fill obt_paths_try_exec p (obt_ddparse_group_keys g) type
            none).1,
          groups := some (store_keys groups "Desktop Entry"
            (link_fill obt_paths_try_exec p (obt_ddparse_group_keys g) type none).2),
          destroyed := false } := by
  simp [obt_link_from_ddfile, hparse, hgroup, htype, hname, happ, hurl]

/-- C3: for every entry with `Type` = Application and `Name` present: when
`Exec` is absent the builder returns `NULL`; when `Exec` is present with the
string `s` the builder returns a link of type Application whose `d.app.exec`
is `s`. -/
theorem C3_application_exec {ObtPaths : Type}
    (obt_ddparse_file : String → List String → Option Groups)
    (obt_paths_try_exec : ObtPaths → Option String → Bool)
    (ddname : String) (paths : List String) (p : ObtPaths) (groups : Groups)
    (g : ObtDDParseGroup) (type name : ObtDDParseValue)
    (hparse : obt_ddparse_file ddname paths = some groups)
    (hgroup : g_hash_table_lookup groups "Desktop Entry" = some g)
    (htype : g_hash_table_lookup (obt_ddparse_group_keys g) "Type" = some type)
    (hname : g_hash_table_lookup (obt_ddparse_group_keys g) "Name" = some name)
    (happ : type.enumerable = OBT_LINK_TYPE_APPLICATION) :
    (g_hash_table_lookup (obt_ddparse_group_keys g) "Exec" = none →
      (obt_link_from_ddfile obt_ddparse_file obt_paths_try_exec ddname paths p).link = none) ∧
    (∀ (target : ObtDDParseValue) (s : String),
      g_hash_table_lookup (obt_ddparse_group_keys g) "Exec" = some target →
      target.string = some s →
      ∃ (l : ObtLink) (a : ObtLinkApp),
        (obt_link_from_ddfile obt_ddparse_file obt_paths_try_exec ddname paths p).link = some l ∧
        l.type = OBT_LINK_TYPE_APPLICATION ∧ l.d = ObtLinkData.app a ∧ a.exec = some s) := by
  constructor
  · intro hexec
    simp [obt_link_from_ddfile, hparse, hgroup, htype, hname, happ, hexec]
  · intro target s hexec hs
    rw [build_application obt_ddparse_file obt_paths_try_exec ddname paths p groups g type name
      target hparse hgroup htype hname happ hexec]
    simp [link_fill, happ, hs]

/-- C3 at the application entry with `Exec = "/usr/bin/x"`: the link is an
application whose command is "/usr/bin/x". -/
theorem C3_application_exec_witness :
    ∃ (l : ObtLink) (a : ObtLinkApp),
      (obt_link_from_ddfile (parsed_as sample_app) (probe_const true) "x.desktop" [] ()).link
        = some l ∧
      l.type = OBT_LINK_TYPE_APPLICATION ∧ l.d = ObtLinkData.app a ∧
      a.exec = some "/usr/bin/x" :=
  (C3_application_exec (parsed_as sample_app) (probe_const true) "x.desktop" [] ()
    sample_app _ (enum_value OBT_LINK_TYPE_APPLICATION) (str_value "X")
    rfl rfl rfl rfl rfl).2 (str_value "/usr/bin/x") "/usr/bin/x" rfl rfl

/-- C4: for every entry with `Type` = Url and `Name` present: when `URL` is
absent the builder returns `NULL`; when `URL` is present with the string `s`
the builder returns a link of type Url whose `d.url.addr` is `s`. -/
theorem C4_url_address {ObtPaths : Type}
    (obt_ddparse_file : String → List String → Option Groups)
    (obt_paths_try_exec : ObtPaths → Option String → Bool)
    (ddname : String) (paths : List String) (p : ObtPaths) (groups : Groups)
    (g : ObtDDParseGroup) (type name : ObtDDParseValue)
    (hparse : obt_ddparse_file ddname paths = some groups)
    (hgroup : g_hash_table_lookup groups "Desktop Entry" = some g)
    (htype : g_hash_table_lookup (obt_ddparse_group_keys g) "Type" = some type)
    (hname : g_hash_table_lookup (obt_ddparse_group_keys g) "Name" = some name)
    (hurl : type.enumerable = OBT_LINK_TYPE_URL) :
    (g_hash_table_lookup (obt_ddparse_group_keys g) "URL" = none →
      (obt_link_from_ddfile obt_ddparse_file obt_paths_try_exec ddname paths p).link = none) ∧
    (∀ (target : ObtDDParseValue) (s : String),
      g_hash_table_lookup (obt_ddparse_group_keys g) "URL" = some target →
      target.string = some s →
      ∃ (l : ObtLink) (u : ObtLinkLink),
        (obt_link_from_ddfile obt_ddparse_file obt_paths_try_exec ddname paths p).link = some l ∧
        l.type = OBT_LINK_TYPE_URL ∧ l.d = ObtLinkData.url u ∧ u.addr = some s) := by
  constructor
  · intro haddr
    simp [obt_link_from_ddfile, hparse, hgroup, htype, hname, hurl, haddr,
      OBT_LINK_TYPE_URL, OBT_LINK_TYPE_APPLICATION]
  · intro target s haddr hs
    rw [build_url obt_ddparse_file obt_paths_try_exec ddname paths p groups g type name
      target hparse hgroup htype hname hurl haddr]
    simp [link_fill, hurl, hs, OBT_LINK_TYPE_URL, OBT_LINK_TYPE_APPLICATION]

/-- C4 at the URL entry with `URL = "https://example.org"`: the link is a
URL whose address is "https://example.org". -/
theorem C4_url_address_witness :
    ∃ (l : ObtLink) (u : ObtLinkLink),
      (obt_link_from_ddfile (parsed_as sample_url) (probe_const true) "e.desktop" [] ()).link
        = some l ∧
      l.type = OBT_LINK_TYPE_URL ∧ l.d = ObtLinkData.url u ∧
      u.addr = some "https://example.org" :=
  (C4_url_address (parsed_as sample_url) (probe_const true) "e.desktop" [] ()
    sample_url _ (enum_value OBT_LINK_TYPE_URL) (str_value "Example")
    rfl rfl rfl rfl rfl).2 (str_value "https://example.org") "https://example.org" rfl rfl

/-! ## The kinds of link -/

/-- C5, as stated, fails: at the entry with `Type` = 7 (none of Application,
Url, Directory) and `Name` = "Odd" the builder does not fail; it returns a
link of type 7 and does not destroy the table. -/
theorem C5_unrecognized_type_is_built :
    g_hash_table_lookup (keys_of [("Type", enum_value 7), ("Name", str_value "Odd")]) "Type"
      = some (enum_value 7) ∧
    (7 ≠ OBT_LINK_TYPE_APPLICATION ∧ 7 ≠ OBT_LINK_TYPE_URL ∧ 7 ≠ OBT_LINK_TYPE_DIRECTORY) ∧
    (obt_link_from_ddfile (parsed_as sample_unknown_type) (probe_const true)
      "odd.desktop" [] ()).link
      = some { ref := 1, type := 7, name := none, display := true, deleted := false,
               generic := none, comment := none, icon := none, env_required := 0,
               env_restricted := 0, d := ObtLinkData.dir } ∧
    (obt_link_from_ddfile (parsed_as sample_unknown_type) (probe_const true)
      "odd.desktop" [] ()).destroyed = false :=
  ⟨rfl, by decide, rfl, rfl⟩

/-- C5, amended: the builder does not reject a `Type` value. For every entry
whose `Type` value is neither Application nor Url (Directory and every
unrecognized value alike): without `Name` the builder returns `NULL`, as for
every type; with `Name` it returns a link with reference count 1, the `Type`
value as its type and no member of the union written. -/
theorem C5_unrecognized_type_amended {ObtPaths : Type}
    (obt_ddparse_file : String → List String → Option Groups)
    (obt_paths_try_exec : ObtPaths → Option String → Bool)
    (ddname : String) (paths : List String) (p : ObtPaths) (groups : Groups)
    (g : ObtDDParseGroup) (type : ObtDDParseValue)
    (hparse : obt_ddparse_file ddname paths = some groups)
    (hgroup : g_hash_table_lookup groups "Desktop Entry" = some g)
    (htype : g_hash_table_lookup (obt_ddparse_group_keys g) "Type" = some type)
    (happ : type.enumerable ≠ OBT_LINK_TYPE_APPLICATION)
    (hurl : type.enumerable ≠ OBT_LINK_TYPE_URL) :
    (g_hash_table_lookup (obt_ddparse_group_keys g) "Name" = none →
      (obt_link_from_ddfile obt_ddparse_file obt_paths_try_exec ddname paths p).link = none) ∧
    (∀ name : ObtDDParseValue,
      g_hash_table_lookup (obt_ddparse_group_keys g) "Name" = some name →
      ∃ l : ObtLink,
        (obt_link_from_ddfile obt_ddparse_file obt_paths_try_exec ddname paths p).link = some l ∧
        l.ref = 1 ∧ l.type = type.enumerable ∧ l.d = ObtLinkData.dir) := by
  constructor
  · intro hname
    simp [obt_link_from_ddfile, hparse, hgroup, htype, hname]
  · intro name hname
    rw [build_other obt_ddparse_file obt_paths_try_exec ddname paths p groups g type name
      hparse hgroup htype hname happ hurl]
    simp [link_fill, happ, hurl]

/-- C5, amended, at the entry with `Type` = 7 and `Name` = "Odd". -/
theorem C5_unrecognized_type_amended_witness :
    ∃ l : ObtLink,
      (obt_link_from_ddfile (parsed_as sample_unknown_type) (probe_const false)
        "odd.desktop" [] ()).link = some l ∧
      l.ref = 1 ∧ l.type = 7 ∧ l.d = ObtLinkData.dir :=
  (C5_unrecognized_type_amended (parsed_as sample_unknown_type) (probe_const false)
    "odd.desktop" [] () sample_unknown_type _ (enum_value 7) rfl rfl rfl
    (by decide) (by decide)).2 (str_value "Odd") rfl

/-- C6: for every entry with a "Desktop Entry" group holding `Name` and a
`Type` among Application, Url, Directory, that holds `Exec` when it is an
application and `URL` when it is a URL, the builder returns a link with
reference count 1 whose type is the `Type` value, and leaves the table
undestroyed. A Directory needs no further key: nothing is asked of `Exec` or
`URL` for it. -/
theorem C6_well_formed_entry_builds {ObtPaths : Type}
    (obt_ddparse_file : String → List String → Option Groups)
    (obt_paths_try_exec : ObtPaths → Option String → Bool)
    (ddname : String) (paths : List String) (p : ObtPaths) (groups : Groups)
    (g : ObtDDParseGroup) (type name : ObtDDParseValue)
    (hparse : obt_ddparse_file ddname paths = some groups)
    (hgroup : g_hash_table_lookup groups "Desktop Entry" = some g)
    (htype : g_hash_table_lookup (obt_ddparse_group_keys g) "Type" = some type)
    (hname : g_hash_table_lookup (obt_ddparse_group_keys g) "Name" = some name)
    (hkind : type.enumerable = OBT_LINK_TYPE_APPLICATION ∨
      type.enumerable = OBT_LINK_TYPE_URL ∨ type.enumerable = OBT_LINK_TYPE_DIRECTORY)
    (hexec : type.enumerable = OBT_LINK_TYPE_APPLICATION →
      g_hash_table_lookup (obt_ddparse_group_keys g) "Exec" ≠ none)
    (haddr : type.enumerable = OBT_LINK_TYPE_URL →
      g_hash_table_lookup (obt_ddparse_group_keys g) "URL" ≠ none) :
    ∃ l : ObtLink,
      (obt_link_from_ddfile obt_ddparse_file obt_paths_try_exec ddname paths p).link = some l ∧
      (obt_link_from_ddfile obt_ddparse_file obt_paths_try_exec ddname paths p).destroyed
        = false ∧
      l.ref = 1 ∧ l.type = type.enumerable := by
  rcases hkind with h | h | h
  · obtain ⟨target, ht⟩ := Option.ne_none_iff_exists'.mp (hexec h)
    rw [build_application obt_ddparse_file obt_paths_try_exec ddname paths p groups g type name
      target hparse hgroup htype hname h ht]
    simp [link_fill, h]
  · obtain ⟨target, ht⟩ := Option.ne_none_iff_exists'.mp (haddr h)
    rw [build_url obt_ddparse_file obt_paths_try_exec ddname paths p groups g type name
      target hparse hgroup htype hname h ht]
    simp [link_fill, h, OBT_LINK_TYPE_URL, OBT_LINK_TYPE_APPLICATION]
  · rw [build_other obt_ddparse_file obt_paths_try_exec ddname paths p groups g type name
      hparse hgroup htype hname (by rw [h]; decide) (by rw [h]; decide)]
    simp [link_fill, h, OBT_LINK_TYPE_URL, OBT_LINK_TYPE_APPLICATION, OBT_LINK_TYPE_DIRECTORY]

/-- C6 at the directory entry that holds `Type` and `Name` only. -/
theorem C6_well_formed_entry_builds_witness :
    g_hash_table_lookup (keys_of [("Type", enum_value OBT_LINK_TYPE_DIRECTORY),
      ("Name", str_value "Games")]) "Exec" = none ∧
    g_hash_table_lookup (keys_of [("Type", enum_value OBT_LINK_TYPE_DIRECTORY),
      ("Name", str_value "Games")]) "URL" = none ∧
    ∃ l : ObtLink,
      (obt_link_from_ddfile (parsed_as sample_dir) (probe_const true) "g.directory" [] ()).link
        = some l ∧
      (obt_link_from_ddfile (parsed_as sample_dir) (probe_const true) "g.directory" [] ()).destroyed
        = false ∧
      l.ref = 1 ∧ l.type = OBT_LINK_TYPE_DIRECTORY :=
  ⟨rfl, rfl,
    C6_well_formed_entry_builds (parsed_as sample_dir) (probe_const true) "g.directory" [] ()
      sample_dir _ (enum_value OBT_LINK_TYPE_DIRECTORY) (str_value "Games") rfl rfl rfl rfl
      (Or.inr (Or.inr rfl)) (fun h => absurd h (by decide)) (fun h => absurd h (by decide))⟩

/-- C7, at the application entry with `Name` = "X": the builder returns a
link, and the field `name` of that link is `NULL`. The value of `Name` is
looked up and required, and is never stored. -/
theorem C7_name_is_not_stored :
    g_hash_table_lookup (keys_of [("Type", enum_value OBT_LINK_TYPE_APPLICATION),
      ("Name", str_value "X"), ("Exec", str_value "/usr/bin/x")]) "Name"
      = some (str_value "X") ∧
    (obt_link_from_ddfile (parsed_as sample_app) (probe_const true) "x.desktop" [] ()).link
      = some { ref := 1, type := OBT_LINK_TYPE_APPLICATION, name := none, display := true,
               deleted := false, generic := none, comment := none, icon := none,
               env_required := 0, env_restricted := 0,
               d := ObtLinkData.app
                 { exec := some "/usr/bin/x", wdir := none, term := false, open_ := 0,
                   mime := none,
                   startup := ObtLinkAppStartup.OBT_LINK_APP_STARTUP_LEGACY_SUPPORT,
                   startup_wmclass := none } } :=
  ⟨rfl, rfl⟩

/-! ## Visibility and the probe -/

@[simp]
theorem url_ne_application : OBT_LINK_TYPE_URL ≠ OBT_LINK_TYPE_APPLICATION := by
  decide

@[simp]
theorem application_ne_url : OBT_LINK_TYPE_APPLICATION ≠ OBT_LINK_TYPE_URL := by
  decide

/-- A returned link read backwards: the group holds `Type` and `Name`, and
the key its type requires, and the link is what `link_fill` makes of the key
table, the pointer `target` being as lines 88 to 97 set it (the value of
`Exec` for an application, of `URL` for a URL, `NULL` otherwise). -/
theorem link_of_build {ObtPaths : Type}
    (obt_ddparse_file : String → List String → Option Groups)
    (obt_paths_try_exec : ObtPaths → Option String → Bool)
    (ddname : String) (paths : List String) (p : ObtPaths) (groups : Groups)
    (g : ObtDDParseGroup) (l : ObtLink)
    (hparse : obt_ddparse_file ddname paths = some groups)
    (hgroup : g_hash_table_lookup groups "Desktop Entry" = some g)
    (hlink : (obt_link_from_ddfile obt_ddparse_file obt_paths_try_exec ddname paths p).link
      = some l) :
    ∃ type : ObtDDParseValue,
      g_hash_table_lookup (obt_ddparse_group_keys g) "Type" = some type ∧
      g_hash_table_lookup (obt_ddparse_group_keys g) "Name" ≠ none ∧
      (type.enumerable = OBT_LINK_TYPE_APPLICATION →
        g_hash_table_lookup (obt_ddparse_group_keys g) "Exec" ≠ none) ∧
      (type.enumerable = OBT_LINK_TYPE_URL →
        g_hash_table_lookup (obt_ddparse_group_keys g) "URL" ≠ none) ∧
      l = (link_fill obt_paths_try_exec p (obt_ddparse_group_keys g) type
        (if type.enumerable = OBT_LINK_TYPE_APPLICATION then
          g_hash_table_lookup (obt_ddparse_group_keys g) "Exec"
        else if type.enumerable = OBT_LINK_TYPE_URL then
          g_hash_table_lookup (obt_ddparse_group_keys g) "URL"
        else none)).1 := by
  cases hT : g_hash_table_lookup (obt_ddparse_group_keys g) "Type" with
  | none => simp [obt_link_from_ddfile, hparse, hgroup, hT] at hlink
  | some type =>
    cases hN : g_hash_table_lookup (obt_ddparse_group_keys g) "Name" with
    | none => simp [obt_link_from_ddfile, hparse, hgroup, hT, hN] at hlink
    | some name =>
      refine ⟨type, rfl, by simp, ?_⟩
      by_cases happ : type.enumerable = OBT_LINK_TYPE_APPLICATION
      · cases hE : g_hash_table_lookup (obt_ddparse_group_keys g) "Exec" with
        | none => simp [obt_link_from_ddfile, hparse, hgroup, hT, hN, happ, hE] at hlink
        | some target =>
          simp [obt_link_from_ddfile, hparse, hgroup, hT, hN, happ, hE] at hlink
          simp [happ, hlink, url_ne_application.symm]
      · by_cases hurl : type.enumerable = OBT_LINK_TYPE_URL
        · cases hU : g_hash_table_lookup (obt_ddparse_group_keys g) "URL" with
          | none =>
            simp [obt_link_from_ddfile, hparse, hgroup, hT, hN, hurl, hU,
              url_ne_application] at hlink
          | some target =>
            simp [obt_link_from_ddfile, hparse, hgroup, hT, hN, hurl, hU,
              url_ne_application] at hlink
            simp [hurl, hlink, url_ne_application]
        · simp [obt_link_from_ddfile, hparse, hgroup, hT, hN, happ, hurl] at hlink
          simp [happ, hurl, hlink]

/-- C8: for every entry on which the builder returns a link and every probe:
when `NoDisplay` is present and true, `display` is false whatever the other
keys and the probe are; when `NoDisplay` is absent, `display` is true unless
the link is an application with a `TryExec` key on whose value the probe
answers false, and in that case it is false. -/
theorem C8_no_display_and_visibility {ObtPaths : Type}
    (obt_ddparse_file : String → List String → Option Groups)
    (obt_paths_try_exec : ObtPaths → Option String → Bool)
    (ddname : String) (paths : List String) (p : ObtPaths) (groups : Groups)
    (g : ObtDDParseGroup) (l : ObtLink)
    (hparse : obt_ddparse_file ddname paths = some groups)
    (hgroup : g_hash_table_lookup groups "Desktop Entry" = some g)
    (hlink : (obt_link_from_ddfile obt_ddparse_file obt_paths_try_exec ddname paths p).link
      = some l) :
    (∀ v : ObtDDParseValue,
      g_hash_table_lookup (obt_ddparse_group_keys g) "NoDisplay" = some v →
      v.boolean = true → l.display = false) ∧
    (g_hash_table_lookup (obt_ddparse_group_keys g) "NoDisplay" = none →
      (l.display = false ↔
        (l.type = OBT_LINK_TYPE_APPLICATION ∧
          ∃ t : ObtDDParseValue,
            g_hash_table_lookup (obt_ddparse_group_keys g) "TryExec" = some t ∧
            obt_paths_try_exec p t.string = false))) := by
  obtain ⟨type, _, _, _, _, rfl⟩ := link_of_build obt_ddparse_file obt_paths_try_exec ddname
    paths p groups g l hparse hgroup hlink
  constructor
  · intro v hv hb
    by_cases happ : type.enumerable = OBT_LINK_TYPE_APPLICATION
    · cases hX : g_hash_table_lookup (obt_ddparse_group_keys g) "TryExec" <;>
        simp [link_fill, happ, hv, hb, hX]
    · by_cases hurl : type.enumerable = OBT_LINK_TYPE_URL <;>
        simp [link_fill, happ, hurl, hv, hb, url_ne_application]
  · intro hnd
    by_cases happ : type.enumerable = OBT_LINK_TYPE_APPLICATION
    · cases hX : g_hash_table_lookup (obt_ddparse_group_keys g) "TryExec" <;>
        simp [link_fill, happ, hnd, hX]
    · by_cases hurl : type.enumerable = OBT_LINK_TYPE_URL <;>
        simp [link_fill, happ, hurl, hnd, url_ne_application]

/-- C8 at the application entry with `NoDisplay = true` and a probe that
finds everything: the link is not displayed. -/
theorem C8_no_display_and_visibility_witness :
    ∃ l : ObtLink,
      (obt_link_from_ddfile (parsed_as sample_no_display) (probe_const true)
        "x.desktop" [] ()).link = some l ∧
      l.display = false :=
  ⟨_, rfl,
    (C8_no_display_and_visibility (parsed_as sample_no_display) (probe_const true)
      "x.desktop" [] () sample_no_display _ _ rfl rfl rfl).1 (bool_value true) rfl rfl⟩

@[simp]
theorem lookup_remove_key_group (groups : Groups) (name k : String) :
    g_hash_table_lookup (remove_key groups name k) name
      = (g_hash_table_lookup groups name).map
          (fun g => { key_hash := fun k' => if k' = k then none else g.key_hash k' }) := by
  simp [g_hash_table_lookup, remove_key]

/-- The link does not depend on `TryExec` beyond the answer of the probe: the
link built from a key table is the link built from the table without
`TryExec`, with `display` cleared when the type is Application and the probe
answers false on the value of `TryExec`. -/
theorem link_fill_without_try_exec {ObtPaths : Type}
    (obt_paths_try_exec : ObtPaths → Option String → Bool) (p : ObtPaths)
    (keys : GHashTable ObtDDParseValue) (type : ObtDDParseValue)
    (target : Option ObtDDParseValue) :
    (link_fill obt_paths_try_exec p keys type target).1
      = { (link_fill obt_paths_try_exec p
            (fun k' => if k' = "TryExec" then none else keys k') type target).1 with
          display :=
            (link_fill obt_paths_try_exec p
              (fun k' => if k' = "TryExec" then none else keys k') type target).1.display &&
            (if type.enumerable = OBT_LINK_TYPE_APPLICATION then
              match g_hash_table_lookup keys "TryExec" with
              | some t => obt_paths_try_exec p t.string
              | none => true
            else true) } := by
  by_cases happ : type.enumerable = OBT_LINK_TYPE_APPLICATION
  · cases hX : g_hash_table_lookup keys "TryExec" <;>
      simp [link_fill, happ, hX] <;> simp [g_hash_table_lookup]
  · by_cases hurl : type.enumerable = OBT_LINK_TYPE_URL <;>
      simp [link_fill, happ, hurl] <;> simp [g_hash_table_lookup]

/-- The type of the link is the value of `Type` (line 102). -/
theorem link_fill_type {ObtPaths : Type}
    (obt_paths_try_exec : ObtPaths → Option String → Bool) (p : ObtPaths)
    (keys : GHashTable ObtDDParseValue) (type : ObtDDParseValue)
    (target : Option ObtDDParseValue) :
    (link_fill obt_paths_try_exec p keys type target).1.type = type.enumerable := by
  unfold link_fill
  simp only
  split
  · rfl
  · split <;> rfl

/-- C9: for every application entry on which the builder returns a link `l`
and that holds `TryExec` with value `t`: the entry without `TryExec` is built
too, into a link `l'`, and `l` is `l'` with `display` replaced by
`l'.display && probe t`. So when the probe answers false on `t` the link is
not displayed, and when it answers true `display` is what it is without
`TryExec`. -/
theorem C9_try_exec_probe {ObtPaths : Type}
    (obt_ddparse_file : String → List String → Option Groups)
    (obt_paths_try_exec : ObtPaths → Option String → Bool)
    (ddname : String) (paths : List String) (p : ObtPaths) (groups : Groups)
    (g : ObtDDParseGroup) (l : ObtLink) (t : ObtDDParseValue)
    (hparse : obt_ddparse_file ddname paths = some groups)
    (hgroup : g_hash_table_lookup groups "Desktop Entry" = some g)
    (hlink : (obt_link_from_ddfile obt_ddparse_file obt_paths_try_exec ddname paths p).link
      = some l)
    (happ : l.type = OBT_LINK_TYPE_APPLICATION)
    (htry : g_hash_table_lookup (obt_ddparse_group_keys g) "TryExec" = some t) :
    ∃ l' : ObtLink,
      (obt_link_from_ddfile (parsed_as (remove_key groups "Desktop Entry" "TryExec"))
        obt_paths_try_exec ddname paths p).link = some l' ∧
      l = { l' with display := l'.display && obt_paths_try_exec p t.string } ∧
      (obt_paths_try_exec p t.string = false → l.display = false) ∧
      (obt_paths_try_exec p t.string = true → l.display = l'.display) := by
  obtain ⟨type, hT, hN, hE, _, hl⟩ := link_of_build obt_ddparse_file obt_paths_try_exec ddname
    paths p groups g l hparse hgroup hlink
  have hty : type.enumerable = OBT_LINK_TYPE_APPLICATION := by
    rw [← happ, hl, link_fill_type]
  obtain ⟨name, hname⟩ := Option.ne_none_iff_exists'.mp hN
  obtain ⟨target, htarget⟩ := Option.ne_none_iff_exists'.mp (hE hty)
  have hbuild := build_application (parsed_as (remove_key groups "Desktop Entry" "TryExec"))
    obt_paths_try_exec ddname paths p (remove_key groups "Desktop Entry" "TryExec")
    { key_hash := fun k' => if k' = "TryExec" then none else g.key_hash k' } type name target
    rfl (by simp [hgroup])
    (by simpa [g_hash_table_lookup, obt_ddparse_group_keys] using hT)
    (by simpa [g_hash_table_lookup, obt_ddparse_group_keys] using hname)
    hty
    (by simpa [g_hash_table_lookup, obt_ddparse_group_keys] using htarget)
  have hl' : l = { (link_fill obt_paths_try_exec p
      (fun k' => if k' = "TryExec" then none else obt_ddparse_group_keys g k') type
        (some target)).1 with
      display := (link_fill obt_paths_try_exec p
        (fun k' => if k' = "TryExec" then none else obt_ddparse_group_keys g k') type
          (some target)).1.display && obt_paths_try_exec p t.string } := by
    rw [hl, link_fill_without_try_exec]
    simp [hty, htry, htarget]
  refine ⟨_, congrArg BuildOutcome.link hbuild, hl', ?_, ?_⟩
  · intro hp
    rw [hl']
    simp [hp]
  · intro hp
    rw [hl']
    simp [hp, obt_ddparse_group_keys]

/-- C9 at the application entry with `TryExec = "nonexistent"` and a probe
that finds only "/usr/bin/x": the probe answers false and the link is not
displayed. -/
theorem C9_try_exec_probe_witness :
    probe_only_x () (some "nonexistent") = false ∧
    ∃ l : ObtLink,
      (obt_link_from_ddfile (parsed_as sample_try_exec) probe_only_x
        "x.desktop" [] ()).link = some l ∧
      l.display = false :=
  ⟨by decide, _, rfl,
    (C9_try_exec_probe (parsed_as sample_try_exec) probe_only_x "x.desktop" [] ()
      sample_try_exec _ _ (str_value "nonexistent") rfl rfl rfl rfl rfl).choose_spec.2.2.1
      (by decide)⟩

/-- The shape of every call, whatever the probe: either the builder returns
`NULL`, with an outcome that does not depend on the probe, or the required
keys are there and the outcome is what `link_fill` makes of the key table,
for a type value and a target that do not depend on the probe. -/
theorem build_shape (obt_ddparse_file : String → List String → Option Groups)
    (ddname : String) (paths : List String) :
    (∃ o : BuildOutcome, o.link = none ∧
      ∀ (ObtPaths : Type) (obt_paths_try_exec : ObtPaths → Option String → Bool) (p : ObtPaths),
        obt_link_from_ddfile obt_ddparse_file obt_paths_try_exec ddname paths p = o) ∨
    (∃ (groups : Groups) (g : ObtDDParseGroup) (type : ObtDDParseValue)
      (target : Option ObtDDParseValue),
      obt_ddparse_file ddname paths = some groups ∧
      g_hash_table_lookup groups "Desktop Entry" = some g ∧
      ∀ (ObtPaths : Type) (obt_paths_try_exec : ObtPaths → Option String → Bool) (p : ObtPaths),
        obt_link_from_ddfile obt_ddparse_file obt_paths_try_exec ddname paths p
          = { link := some (link_fill obt_paths_try_exec p (obt_ddparse_group_keys g) type
                target).1,
              groups := some (store_keys groups "Desktop Entry"
                (link_fill obt_paths_try_exec p (obt_ddparse_group_keys g) type target).2),
              destroyed := false }) := by
  cases hP : obt_ddparse_file ddname paths with
  | none =>
    exact Or.inl ⟨{ link := none, groups := none, destroyed := false }, rfl,
      fun _ _ _ => by simp [obt_link_from_ddfile, hP]⟩
  | some groups =>
    cases hG : g_hash_table_lookup groups "Desktop Entry" with
    | none =>
      exact Or.inl ⟨{ link := none, groups := some groups, destroyed := true }, rfl,
        fun _ _ _ => by simp [obt_link_from_ddfile, hP, hG]⟩
    | some g =>
      cases hT : g_hash_table_lookup (obt_ddparse_group_keys g) "Type" with
      | none =>
        exact Or.inl ⟨{ link := none, groups := some groups, destroyed := true }, rfl,
          fun _ _ _ => by simp [obt_link_from_ddfile, hP, hG, hT]⟩
      | some type =>
        cases hN : g_hash_table_lookup (obt_ddparse_group_keys g) "Name" with
        | none =>
          exact Or.inl ⟨{ link := none, groups := some groups, destroyed := true }, rfl,
            fun _ _ _ => by simp [obt_link_from_ddfile, hP, hG, hT, hN]⟩
        | some name =>
          by_cases happ : type.enumerable = OBT_LINK_TYPE_APPLICATION
          · cases hE : g_hash_table_lookup (obt_ddparse_group_keys g) "Exec" with
            | none =>
              exact Or.inl ⟨{ link := none, groups := some groups, destroyed := true }, rfl,
                fun _ _ _ => by simp [obt_link_from_ddfile, hP, hG, hT, hN, happ, hE]⟩
            | some target =>
              exact Or.inr ⟨groups, g, type, some target, rfl, hG, fun _ probe p =>
                build_application obt_ddparse_file probe ddname paths p groups g type name
                  target hP hG hT hN happ hE⟩
          · by_cases hurl : type.enumerable = OBT_LINK_TYPE_URL
            · cases hU : g_hash_table_lookup (obt_ddparse_group_keys g) "URL" with
              | none =>
                exact Or.inl ⟨{ link := none, groups := some groups, destroyed := true }, rfl,
                  fun _ _ _ => by simp [obt_link_from_ddfile, hP, hG, hT, hN, hurl, hU]⟩
              | some target =>
                exact Or.inr ⟨groups, g, type, some target, rfl, hG, fun _ probe p =>
                  build_url obt_ddparse_file probe ddname paths p groups g type name
                    target hP hG hT hN hurl hU⟩
            · exact Or.inr ⟨groups, g, type, none, rfl, hG, fun _ probe p =>
                build_other obt_ddparse_file probe ddname paths p groups g type name
                  hP hG hT hN happ hurl⟩

/-- The key table that `link_fill` leaves does not depend on the probe. -/
theorem link_fill_snd_probe {P1 P2 : Type}
    (probe1 : P1 → Option String → Bool) (probe2 : P2 → Option String → Bool)
    (p1 : P1) (p2 : P2) (keys : GHashTable ObtDDParseValue) (type : ObtDDParseValue)
    (target : Option ObtDDParseValue) :
    (link_fill probe1 p1 keys type target).2 = (link_fill probe2 p2 keys type target).2 := by
  by_cases happ : type.enumerable = OBT_LINK_TYPE_APPLICATION
  · simp [link_fill, happ]
  · by_cases hurl : type.enumerable = OBT_LINK_TYPE_URL <;> simp [link_fill, happ, hurl]

/-- Two probes give links that differ in `display` at most. -/
theorem link_fill_fst_probe {P1 P2 : Type}
    (probe1 : P1 → Option String → Bool) (probe2 : P2 → Option String → Bool)
    (p1 : P1) (p2 : P2) (keys : GHashTable ObtDDParseValue) (type : ObtDDParseValue)
    (target : Option ObtDDParseValue) :
    (link_fill probe2 p2 keys type target).1
      = { (link_fill probe1 p1 keys type target).1 with
          display := (link_fill probe2 p2 keys type target).1.display } := by
  by_cases happ : type.enumerable = OBT_LINK_TYPE_APPLICATION
  · simp [link_fill, happ]
  · by_cases hurl : type.enumerable = OBT_LINK_TYPE_URL <;> simp [link_fill, happ, hurl]

/-- Two probes that agree on the value of `TryExec` give the same link. -/
theorem link_fill_fst_agree {P1 P2 : Type}
    (probe1 : P1 → Option String → Bool) (probe2 : P2 → Option String → Bool)
    (p1 : P1) (p2 : P2) (keys : GHashTable ObtDDParseValue) (type : ObtDDParseValue)
    (target : Option ObtDDParseValue)
    (hagree : ∀ t : ObtDDParseValue, g_hash_table_lookup keys "TryExec" = some t →
      probe1 p1 t.string = probe2 p2 t.string) :
    (link_fill probe1 p1 keys type target).1 = (link_fill probe2 p2 keys type target).1 := by
  by_cases happ : type.enumerable = OBT_LINK_TYPE_APPLICATION
  · cases hX : g_hash_table_lookup keys "TryExec" with
    | none => simp [link_fill, happ, hX]
    | some t => simp [link_fill, happ, hX, hagree t hX]
  · by_cases hurl : type.enumerable = OBT_LINK_TYPE_URL <;> simp [link_fill, happ, hurl]

/-- C10: the probe never aborts the construction and touches `display` only.
For every entry and every two probes: the builder returns `NULL` with the one
exactly when it does with the other; two links returned agree on every field
but `display`; the parsed table is left the same and destroyed alike; and
when the probes agree on the value of the entry's `TryExec` the two links are
the same. -/
theorem C10_probe_only_affects_display {P1 P2 : Type}
    (obt_ddparse_file : String → List String → Option Groups)
    (probe1 : P1 → Option String → Bool) (probe2 : P2 → Option String → Bool)
    (ddname : String) (paths : List String) (p1 : P1) (p2 : P2) :
    ((obt_link_from_ddfile obt_ddparse_file probe1 ddname paths p1).link = none ↔
      (obt_link_from_ddfile obt_ddparse_file probe2 ddname paths p2).link = none) ∧
    (∀ l1 l2 : ObtLink,
      (obt_link_from_ddfile obt_ddparse_file probe1 ddname paths p1).link = some l1 →
      (obt_link_from_ddfile obt_ddparse_file probe2 ddname paths p2).link = some l2 →
      l2 = { l1 with display := l2.display }) ∧
    (obt_link_from_ddfile obt_ddparse_file probe1 ddname paths p1).groups
      = (obt_link_from_ddfile obt_ddparse_file probe2 ddname paths p2).groups ∧
    (obt_link_from_ddfile obt_ddparse_file probe1 ddname paths p1).destroyed
      = (obt_link_from_ddfile obt_ddparse_file probe2 ddname paths p2).destroyed ∧
    ((∀ (groups : Groups) (g : ObtDDParseGroup) (t : ObtDDParseValue),
        obt_ddparse_file ddname paths = some groups →
        g_hash_table_lookup groups "Desktop Entry" = some g →
        g_hash_table_lookup (obt_ddparse_group_keys g) "TryExec" = some t →
        probe1 p1 t.string = probe2 p2 t.string) →
      (obt_link_from_ddfile obt_ddparse_file probe1 ddname paths p1).link
        = (obt_link_from_ddfile obt_ddparse_file probe2 ddname paths p2).link) := by
  rcases build_shape obt_ddparse_file ddname paths with
    ⟨o, ho, hall⟩ | ⟨groups, g, type, target, hP, hG, hall⟩
  · rw [hall P1 probe1 p1, hall P2 probe2 p2]
    simp [ho]
  · rw [hall P1 probe1 p1, hall P2 probe2 p2]
    refine ⟨by simp, ?_, ?_, rfl, ?_⟩
    · intro l1 l2 h1 h2
      simp only [Option.some.injEq] at h1 h2
      rw [← h1, ← h2]
      exact link_fill_fst_probe probe1 probe2 p1 p2 _ type target
    · simp only
      rw [link_fill_snd_probe probe1 probe2 p1 p2]
    · intro hagree
      simp only
      rw [link_fill_fst_agree probe1 probe2 p1 p2 _ type target
        (fun t ht => hagree groups g t hP hG ht)]

/-- C10 at the application entry with `TryExec = "nonexistent"`, for the
probe that finds everything and the probe that finds only "/usr/bin/x": both
calls return a link, and the second link is the first with `display`
cleared. -/
theorem C10_probe_only_affects_display_witness :
    ∃ l1 l2 : ObtLink,
      (obt_link_from_ddfile (parsed_as sample_try_exec) (probe_const true)
        "x.desktop" [] ()).link = some l1 ∧
      (obt_link_from_ddfile (parsed_as sample_try_exec) probe_only_x
        "x.desktop" [] ()).link = some l2 ∧
      l1.display = true ∧ l2.display = false ∧
      l2 = { l1 with display := l2.display } :=
  ⟨_, _, rfl, rfl, rfl, rfl,
    (C10_probe_only_affects_display (parsed_as sample_try_exec) (probe_const true)
      probe_only_x "x.desktop" [] () ()).2.1 _ _ rfl rfl⟩

/-! ## The field `name` -/

/-- No call stores a name: whatever the entry and the probe, the field `name`
of a returned link is `NULL` (no statement of the builder assigns it). -/
theorem built_link_has_no_name {ObtPaths : Type}
    (obt_ddparse_file : String → List String → Option Groups)
    (obt_paths_try_exec : ObtPaths → Option String → Bool)
    (ddname : String) (paths : List String) (p : ObtPaths) :
    (obt_link_from_ddfile obt_ddparse_file obt_paths_try_exec ddname paths p).link.bind
      ObtLink.name = none := by
  rcases build_shape obt_ddparse_file ddname paths with
    ⟨o, ho, hall⟩ | ⟨groups, g, type, target, _, _, hall⟩
  · rw [hall ObtPaths obt_paths_try_exec p, ho]
    rfl
  · rw [hall ObtPaths obt_paths_try_exec p]
    by_cases happ : type.enumerable = OBT_LINK_TYPE_APPLICATION
    · simp [link_fill, happ]
    · by_cases hurl : type.enumerable = OBT_LINK_TYPE_URL <;> simp [link_fill, happ, hurl]

/-! ## The table after the call -/

@[simp]
theorem lookup_store_keys_self (groups : Groups) (name : String)
    (keys : GHashTable ObtDDParseValue) :
    g_hash_table_lookup (store_keys groups name keys) name
      = (g_hash_table_lookup groups name).map (fun _ => { key_hash := keys }) := by
  simp [g_hash_table_lookup, store_keys]

@[simp]
theorem lookup_store_keys_ne (groups : Groups) (name n : String)
    (keys : GHashTable ObtDDParseValue) (h : n ≠ name) :
    g_hash_table_lookup (store_keys groups name keys) n = g_hash_table_lookup groups n := by
  simp [g_hash_table_lookup, store_keys, h]

/-- The whole outcome of a call that returns a link: the link and the key
table are what `link_fill` makes of the group's keys, the pointer `target`
being as lines 88 to 97 set it, and the table is not destroyed. -/
theorem outcome_of_build {ObtPaths : Type}
    (obt_ddparse_file : String → List String → Option Groups)
    (obt_paths_try_exec : ObtPaths → Option String → Bool)
    (ddname : String) (paths : List String) (p : ObtPaths) (groups : Groups)
    (g : ObtDDParseGroup) (l : ObtLink)
    (hparse : obt_ddparse_file ddname paths = some groups)
    (hgroup : g_hash_table_lookup groups "Desktop Entry" = some g)
    (hlink : (obt_link_from_ddfile obt_ddparse_file obt_paths_try_exec ddname paths p).link
      = some l) :
    ∃ (type : ObtDDParseValue) (target : Option ObtDDParseValue),
      g_hash_table_lookup (obt_ddparse_group_keys g) "Type" = some type ∧
      l.type = type.enumerable ∧
      l = (link_fill obt_paths_try_exec p (obt_ddparse_group_keys g) type target).1 ∧
      (type.enumerable = OBT_LINK_TYPE_APPLICATION →
        target = g_hash_table_lookup (obt_ddparse_group_keys g) "Exec") ∧
      (type.enumerable = OBT_LINK_TYPE_URL →
        target = g_hash_table_lookup (obt_ddparse_group_keys g) "URL") ∧
      obt_link_from_ddfile obt_ddparse_file obt_paths_try_exec ddname paths p
        = { link := some l,
            groups := some (store_keys groups "Desktop Entry"
              (link_fill obt_paths_try_exec p (obt_ddparse_group_keys g) type target).2),
            destroyed := false } := by
  obtain ⟨type, hT, hN, hE, hU, hl⟩ := link_of_build obt_ddparse_file obt_paths_try_exec ddname
    paths p groups g l hparse hgroup hlink
  obtain ⟨name, hname⟩ := Option.ne_none_iff_exists'.mp hN
  have hty : l.type = type.enumerable := by rw [hl, link_fill_type]
  by_cases happ : type.enumerable = OBT_LINK_TYPE_APPLICATION
  · obtain ⟨target, ht⟩ := Option.ne_none_iff_exists'.mp (hE happ)
    have hl' : l = (link_fill obt_paths_try_exec p (obt_ddparse_group_keys g) type
        (some target)).1 := by
      rw [hl]; simp [happ, ht]
    refine ⟨type, some target, hT, hty, hl', fun _ => ht.symm, ?_, ?_⟩
    · intro h; rw [happ] at h; exact absurd h application_ne_url
    · rw [build_application obt_ddparse_file obt_paths_try_exec ddname paths p groups g type
        name target hparse hgroup hT hname happ ht, ← hl']
  · by_cases hurl : type.enumerable = OBT_LINK_TYPE_URL
    · obtain ⟨target, ht⟩ := Option.ne_none_iff_exists'.mp (hU hurl)
      have hl' : l = (link_fill obt_paths_try_exec p (obt_ddparse_group_keys g) type
          (some target)).1 := by
        rw [hl]; simp [happ, hurl, ht]
      refine ⟨type, some target, hT, hty, hl', fun h => absurd h happ, fun _ => ht.symm, ?_⟩
      rw [build_url obt_ddparse_file obt_paths_try_exec ddname paths p groups g type
        name target hparse hgroup hT hname hurl ht, ← hl']
    · have hl' : l = (link_fill obt_paths_try_exec p (obt_ddparse_group_keys g) type
          none).1 := by
        rw [hl]; simp [happ, hurl]
      refine ⟨type, none, hT, hty, hl', fun h => absurd h happ, fun h => absurd h hurl, ?_⟩
      rw [build_other obt_ddparse_file obt_paths_try_exec ddname paths p groups g type
        name hparse hgroup hT hname happ hurl, ← hl']

/-- The key table that `link_fill` leaves: the strings under `GenericName`,
`Comment` and `Icon`, under `Exec` and `Path` for an application and under
`URL` for a URL are `NULL`; nothing else is changed. -/
theorem link_fill_snd_lookup {ObtPaths : Type}
    (obt_paths_try_exec : ObtPaths → Option String → Bool) (p : ObtPaths)
    (keys : GHashTable ObtDDParseValue) (type : ObtDDParseValue)
    (target : Option ObtDDParseValue) (k : String) :
    g_hash_table_lookup (link_fill obt_paths_try_exec p keys type target).2 k
      = if k = "GenericName" ∨ k = "Comment" ∨ k = "Icon" ∨
          (type.enumerable = OBT_LINK_TYPE_APPLICATION ∧ (k = "Exec" ∨ k = "Path")) ∨
          (type.enumerable = OBT_LINK_TYPE_URL ∧ k = "URL")
        then (g_hash_table_lookup keys k).map (fun v => { v with string := none })
        else g_hash_table_lookup keys k := by
  by_cases happ : type.enumerable = OBT_LINK_TYPE_APPLICATION
  · simp only [link_fill, happ, if_true, take_string_snd, g_hash_table_lookup, steal_string]
    by_cases h1 : k = "Path" <;> by_cases h2 : k = "Icon" <;> by_cases h3 : k = "Comment" <;>
      by_cases h4 : k = "GenericName" <;> by_cases h5 : k = "Exec" <;>
      simp_all
  · by_cases hurl : type.enumerable = OBT_LINK_TYPE_URL
    · simp only [link_fill, hurl, url_ne_application, if_false, if_true, take_string_snd,
        g_hash_table_lookup, steal_string]
      by_cases h2 : k = "Icon" <;> by_cases h3 : k = "Comment" <;>
        by_cases h4 : k = "GenericName" <;> by_cases h5 : k = "URL" <;>
        simp_all
    · simp only [link_fill, happ, hurl, if_false, take_string_snd,
        g_hash_table_lookup, steal_string]
      by_cases h2 : k = "Icon" <;> by_cases h3 : k = "Comment" <;>
        by_cases h4 : k = "GenericName" <;>
        simp_all

/-! ## Startup notification -/

/-- C11: for every application entry on which the builder returns a link, the
member `startup` is LegacySupport when `StartupNotify` is absent,
ProtocolSupport when it is present and true, and NoSupport when it is present
and false. -/
theorem C11_startup_notify {ObtPaths : Type}
    (obt_ddparse_file : String → List String → Option Groups)
    (obt_paths_try_exec : ObtPaths → Option String → Bool)
    (ddname : String) (paths : List String) (p : ObtPaths) (groups : Groups)
    (g : ObtDDParseGroup) (l : ObtLink)
    (hparse : obt_ddparse_file ddname paths = some groups)
    (hgroup : g_hash_table_lookup groups "Desktop Entry" = some g)
    (hlink : (obt_link_from_ddfile obt_ddparse_file obt_paths_try_exec ddname paths p).link
      = some l)
    (happ : l.type = OBT_LINK_TYPE_APPLICATION) :
    ∃ a : ObtLinkApp, l.d = ObtLinkData.app a ∧
      (g_hash_table_lookup (obt_ddparse_group_keys g) "StartupNotify" = none →
        a.startup = ObtLinkAppStartup.OBT_LINK_APP_STARTUP_LEGACY_SUPPORT) ∧
      (∀ v : ObtDDParseValue,
        g_hash_table_lookup (obt_ddparse_group_keys g) "StartupNotify" = some v →
        v.boolean = true →
        a.startup = ObtLinkAppStartup.OBT_LINK_APP_STARTUP_PROTOCOL_SUPPORT) ∧
      (∀ v : ObtDDParseValue,
        g_hash_table_lookup (obt_ddparse_group_keys g) "StartupNotify" = some v →
        v.boolean = false →
        a.startup = ObtLinkAppStartup.OBT_LINK_APP_STARTUP_NO_SUPPORT) := by
  obtain ⟨type, target, _, hty, hl, _, _, _⟩ := outcome_of_build obt_ddparse_file
    obt_paths_try_exec ddname paths p groups g l hparse hgroup hlink
  have ht : type.enumerable = OBT_LINK_TYPE_APPLICATION := by rw [← hty, happ]
  rw [hl]
  cases hS : g_hash_table_lookup (obt_ddparse_group_keys g) "StartupNotify" with
  | none => simp [link_fill, ht, hS]
  | some v =>
    cases hb : v.boolean <;> simp [link_fill, ht, hS, hb]

/-- C11 at the application entry with `StartupNotify = true`: the link is an
application with ProtocolSupport. -/
theorem C11_startup_notify_witness :
    ∃ (l : ObtLink) (a : ObtLinkApp),
      (obt_link_from_ddfile (parsed_as sample_startup) (probe_const true)
        "x.desktop" [] ()).link = some l ∧
      l.d = ObtLinkData.app a ∧
      a.startup = ObtLinkAppStartup.OBT_LINK_APP_STARTUP_PROTOCOL_SUPPORT :=
  match C11_startup_notify (parsed_as sample_startup) (probe_const true) "x.desktop" [] ()
      sample_startup _ _ rfl rfl rfl rfl with
  | ⟨a, hd, _, hprot, _⟩ => ⟨_, a, rfl, hd, hprot (bool_value true) rfl rfl⟩

/-! ## The fields of the link, read from the entry -/

/-- The fields common to every kind of link, in terms of the key table the
parser made: lines 100 to 132. -/
theorem link_fill_common {ObtPaths : Type}
    (obt_paths_try_exec : ObtPaths → Option String → Bool) (p : ObtPaths)
    (keys : GHashTable ObtDDParseValue) (type : ObtDDParseValue)
    (target : Option ObtDDParseValue) :
    (link_fill obt_paths_try_exec p keys type target).1.ref = 1 ∧
    (link_fill obt_paths_try_exec p keys type target).1.deleted
      = (match g_hash_table_lookup keys "Hidden" with
        | some v => v.boolean
        | none => false) ∧
    (link_fill obt_paths_try_exec p keys type target).1.generic
      = (g_hash_table_lookup keys "GenericName").bind (fun v => v.string) ∧
    (link_fill obt_paths_try_exec p keys type target).1.comment
      = (g_hash_table_lookup keys "Comment").bind (fun v => v.string) ∧
    (link_fill obt_paths_try_exec p keys type target).1.icon
      = (g_hash_table_lookup keys "Icon").bind (fun v => v.string) ∧
    (link_fill obt_paths_try_exec p keys type target).1.env_required
      = (match g_hash_table_lookup keys "OnlyShowIn" with
        | some v => v.environments
        | none => 0) ∧
    (link_fill obt_paths_try_exec p keys type target).1.env_restricted
      = (match g_hash_table_lookup keys "NotShowIn" with
        | some v => v.environments
        | none => 0) := by
  by_cases happ : type.enumerable = OBT_LINK_TYPE_APPLICATION
  · simp [link_fill, happ]
  · by_cases hurl : type.enumerable = OBT_LINK_TYPE_URL <;> simp [link_fill, happ, hurl]

/-- The field `display`, in terms of the key table the parser made: lines
107, 112 to 113 and 134 to 139. -/
theorem link_fill_display {ObtPaths : Type}
    (obt_paths_try_exec : ObtPaths → Option String → Bool) (p : ObtPaths)
    (keys : GHashTable ObtDDParseValue) (type : ObtDDParseValue)
    (target : Option ObtDDParseValue) :
    (link_fill obt_paths_try_exec p keys type target).1.display
      = ((match g_hash_table_lookup keys "NoDisplay" with
          | some v => !v.boolean
          | none => true) &&
        (if type.enumerable = OBT_LINK_TYPE_APPLICATION then
          match g_hash_table_lookup keys "TryExec" with
          | some t => obt_paths_try_exec p t.string
          | none => true
        else true)) := by
  by_cases happ : type.enumerable = OBT_LINK_TYPE_APPLICATION
  · cases hX : g_hash_table_lookup keys "TryExec" <;> simp [link_fill, happ, hX]
  · by_cases hurl : type.enumerable = OBT_LINK_TYPE_URL <;> simp [link_fill, happ, hurl]

/-- The union of an application, in terms of the key table the parser made:
lines 103 to 104 and 141 to 155. -/
theorem link_fill_d_application {ObtPaths : Type}
    (obt_paths_try_exec : ObtPaths → Option String → Bool) (p : ObtPaths)
    (keys : GHashTable ObtDDParseValue) (type : ObtDDParseValue)
    (target : Option ObtDDParseValue)
    (happ : type.enumerable = OBT_LINK_TYPE_APPLICATION) :
    (link_fill obt_paths_try_exec p keys type target).1.d
      = ObtLinkData.app
          { exec := target.bind (fun t => t.string),
            wdir := (g_hash_table_lookup keys "Path").bind (fun v => v.string),
            term := (match g_hash_table_lookup keys "Terminal" with
              | some v => v.boolean
              | none => false),
            open_ := 0, mime := none,
            startup := (match g_hash_table_lookup keys "StartupNotify" with
              | some v =>
                if v.boolean then ObtLinkAppStartup.OBT_LINK_APP_STARTUP_PROTOCOL_SUPPORT
                else ObtLinkAppStartup.OBT_LINK_APP_STARTUP_NO_SUPPORT
              | none => ObtLinkAppStartup.OBT_LINK_APP_STARTUP_LEGACY_SUPPORT),
            startup_wmclass := none } := by
  simp [link_fill, happ]

/-- The union of a URL: line 106. -/
theorem link_fill_d_url {ObtPaths : Type}
    (obt_paths_try_exec : ObtPaths → Option String → Bool) (p : ObtPaths)
    (keys : GHashTable ObtDDParseValue) (type : ObtDDParseValue)
    (target : Option ObtDDParseValue)
    (hurl : type.enumerable = OBT_LINK_TYPE_URL) :
    (link_fill obt_paths_try_exec p keys type target).1.d
      = ObtLinkData.url { addr := target.bind (fun t => t.string) } := by
  simp [link_fill, hurl]

/-- The union of every other link: no member is written. -/
theorem link_fill_d_other {ObtPaths : Type}
    (obt_paths_try_exec : ObtPaths → Option String → Bool) (p : ObtPaths)
    (keys : GHashTable ObtDDParseValue) (type : ObtDDParseValue)
    (target : Option ObtDDParseValue)
    (happ : type.enumerable ≠ OBT_LINK_TYPE_APPLICATION)
    (hurl : type.enumerable ≠ OBT_LINK_TYPE_URL) :
    (link_fill obt_paths_try_exec p keys type target).1.d = ObtLinkData.dir := by
  simp [link_fill, happ, hurl]

/-! ## Relocated strings -/

/-- C12: for every entry on which the builder returns a link, each relocated
string is in the link exactly as the entry held it before the call, and the
entry's slot is `NULL` after the call: `GenericName`, `Comment` and `Icon`
for every link, `Exec` and `Path` for an application (`d.app.exec`,
`d.app.wdir`), `URL` for a URL (`d.url.addr`). The other members of the value
are as before. -/
theorem C12_relocated_strings {ObtPaths : Type}
    (obt_ddparse_file : String → List String → Option Groups)
    (obt_paths_try_exec : ObtPaths → Option String → Bool)
    (ddname : String) (paths : List String) (p : ObtPaths) (groups : Groups)
    (g : ObtDDParseGroup) (l : ObtLink)
    (hparse : obt_ddparse_file ddname paths = some groups)
    (hgroup : g_hash_table_lookup groups "Desktop Entry" = some g)
    (hlink : (obt_link_from_ddfile obt_ddparse_file obt_paths_try_exec ddname paths p).link
      = some l) :
    ∃ g' : ObtDDParseGroup,
      (obt_link_from_ddfile obt_ddparse_file obt_paths_try_exec ddname paths p).groups.bind
        (fun groups' => g_hash_table_lookup groups' "Desktop Entry") = some g' ∧
      (∀ v : ObtDDParseValue,
        g_hash_table_lookup (obt_ddparse_group_keys g) "GenericName" = some v →
        l.generic = v.string ∧
        g_hash_table_lookup (obt_ddparse_group_keys g') "GenericName"
          = some { v with string := none }) ∧
      (∀ v : ObtDDParseValue,
        g_hash_table_lookup (obt_ddparse_group_keys g) "Comment" = some v →
        l.comment = v.string ∧
        g_hash_table_lookup (obt_ddparse_group_keys g') "Comment"
          = some { v with string := none }) ∧
      (∀ v : ObtDDParseValue,
        g_hash_table_lookup (obt_ddparse_group_keys g) "Icon" = some v →
        l.icon = v.string ∧
        g_hash_table_lookup (obt_ddparse_group_keys g') "Icon"
          = some { v with string := none }) ∧
      (l.type = OBT_LINK_TYPE_APPLICATION →
        ∃ a : ObtLinkApp, l.d = ObtLinkData.app a ∧
          (∀ v : ObtDDParseValue,
            g_hash_table_lookup (obt_ddparse_group_keys g) "Exec" = some v →
            a.exec = v.string ∧
            g_hash_table_lookup (obt_ddparse_group_keys g') "Exec"
              = some { v with string := none }) ∧
          (∀ v : ObtDDParseValue,
            g_hash_table_lookup (obt_ddparse_group_keys g) "Path" = some v →
            a.wdir = v.string ∧
            g_hash_table_lookup (obt_ddparse_group_keys g') "Path"
              = some { v with string := none })) ∧
      (l.type = OBT_LINK_TYPE_URL →
        ∃ u : ObtLinkLink, l.d = ObtLinkData.url u ∧
          ∀ v : ObtDDParseValue,
            g_hash_table_lookup (obt_ddparse_group_keys g) "URL" = some v →
            u.addr = v.string ∧
            g_hash_table_lookup (obt_ddparse_group_keys g') "URL"
              = some { v with string := none }) := by
  obtain ⟨type, target, _, hty, hl, hE, hU, hout⟩ := outcome_of_build obt_ddparse_file
    obt_paths_try_exec ddname paths p groups g l hparse hgroup hlink
  obtain ⟨_, _, hgen, hcom, hico, _, _⟩ := link_fill_common obt_paths_try_exec p
    (obt_ddparse_group_keys g) type target
  refine ⟨{ key_hash := (link_fill obt_paths_try_exec p (obt_ddparse_group_keys g) type
    target).2 }, by rw [hout]; simp [hgroup], ?_, ?_, ?_, ?_, ?_⟩
  · intro v hv
    exact ⟨by rw [hl, hgen, hv]; rfl,
      by
        show g_hash_table_lookup (link_fill _ _ _ _ _).2 _ = _
        rw [link_fill_snd_lookup, hv]
        simp⟩
  · intro v hv
    exact ⟨by rw [hl, hcom, hv]; rfl,
      by
        show g_hash_table_lookup (link_fill _ _ _ _ _).2 _ = _
        rw [link_fill_snd_lookup, hv]
        simp⟩
  · intro v hv
    exact ⟨by rw [hl, hico, hv]; rfl,
      by
        show g_hash_table_lookup (link_fill _ _ _ _ _).2 _ = _
        rw [link_fill_snd_lookup, hv]
        simp⟩
  · intro happ
    have ht : type.enumerable = OBT_LINK_TYPE_APPLICATION := by rw [← hty, happ]
    refine ⟨_, by rw [hl]; exact link_fill_d_application obt_paths_try_exec p _ type target ht,
      ?_, ?_⟩
    · intro v hv
      exact ⟨by simp [hE ht, hv],
        by
        show g_hash_table_lookup (link_fill _ _ _ _ _).2 _ = _
        rw [link_fill_snd_lookup, hv]
        simp [ht]⟩
    · intro v hv
      exact ⟨by simp [hv],
        by
        show g_hash_table_lookup (link_fill _ _ _ _ _).2 _ = _
        rw [link_fill_snd_lookup, hv]
        simp [ht]⟩
  · intro hurl
    have ht : type.enumerable = OBT_LINK_TYPE_URL := by rw [← hty, hurl]
    refine ⟨_, by rw [hl]; exact link_fill_d_url obt_paths_try_exec p _ type target ht, ?_⟩
    intro v hv
    exact ⟨by simp [hU ht, hv],
      by
        show g_hash_table_lookup (link_fill _ _ _ _ _).2 _ = _
        rw [link_fill_snd_lookup, hv]
        simp [ht]⟩

/-- C12 at the application entry with `Comment = "Views things"`: the link
holds that comment and the entry's `Comment` slot is `NULL` after the call. -/
theorem C12_relocated_strings_witness :
    ∃ (l : ObtLink) (g' : ObtDDParseGroup),
      (obt_link_from_ddfile (parsed_as sample_full_app) (probe_const true)
        "x.desktop" [] ()).link = some l ∧
      (obt_link_from_ddfile (parsed_as sample_full_app) (probe_const true)
        "x.desktop" [] ()).groups.bind
        (fun groups' => g_hash_table_lookup groups' "Desktop Entry") = some g' ∧
      l.comment = some "Views things" ∧
      g_hash_table_lookup (obt_ddparse_group_keys g') "Comment"
        = some { str_value "Views things" with string := none } :=
  match C12_relocated_strings (parsed_as sample_full_app) (probe_const true) "x.desktop" [] ()
      sample_full_app _ _ rfl rfl rfl with
  | ⟨g', hg', _, hcom, _⟩ =>
    ⟨_, g', rfl, hg', (hcom (str_value "Views things") rfl).1,
      (hcom (str_value "Views things") rfl).2⟩

/-! ## Acquire and release -/

/-- A returned link has reference count 1 (line 101). -/
theorem built_link_ref {ObtPaths : Type}
    (obt_ddparse_file : String → List String → Option Groups)
    (obt_paths_try_exec : ObtPaths → Option String → Bool)
    (ddname : String) (paths : List String) (p : ObtPaths) (l : ObtLink)
    (hlink : (obt_link_from_ddfile obt_ddparse_file obt_paths_try_exec ddname paths p).link
      = some l) :
    l.ref = 1 := by
  rcases build_shape obt_ddparse_file ddname paths with
    ⟨o, ho, hall⟩ | ⟨groups, g, type, target, _, _, hall⟩
  · rw [hall ObtPaths obt_paths_try_exec p, ho] at hlink
    exact absurd hlink (by simp)
  · rw [hall ObtPaths obt_paths_try_exec p] at hlink
    simp only [Option.some.injEq] at hlink
    rw [← hlink]
    exact (link_fill_common obt_paths_try_exec p _ type target).1

/-- C13: every link the builder returns has reference count 1, and the first
`obt_link_unref` applied to it frees it. -/
theorem C13_first_unref_frees {ObtPaths : Type}
    (obt_ddparse_file : String → List String → Option Groups)
    (obt_paths_try_exec : ObtPaths → Option String → Bool)
    (ddname : String) (paths : List String) (p : ObtPaths) (l : ObtLink)
    (hlink : (obt_link_from_ddfile obt_ddparse_file obt_paths_try_exec ddname paths p).link
      = some l) :
    l.ref = 1 ∧ (obt_link_unref l).2 = true := by
  have h := built_link_ref obt_ddparse_file obt_paths_try_exec ddname paths p l hlink
  refine ⟨h, ?_⟩
  simp [obt_link_unref, h]

/-- C13 at the application entry with `Exec = "/usr/bin/x"`. -/
theorem C13_first_unref_frees_witness :
    ∃ l : ObtLink,
      (obt_link_from_ddfile (parsed_as sample_app) (probe_const true) "x.desktop" [] ()).link
        = some l ∧
      l.ref = 1 ∧ (obt_link_unref l).2 = true :=
  ⟨_, rfl, C13_first_unref_frees (parsed_as sample_app) (probe_const true) "x.desktop" [] ()
    _ rfl⟩

/-- C14, as stated, fails: at the link built from the directory entry, after
two `obt_link_ref` and two `obt_link_unref` the link is not freed; its
reference count is 1 again. -/
theorem C14_two_unrefs_do_not_free :
    ∃ l : ObtLink,
      (obt_link_from_ddfile (parsed_as sample_dir) (probe_const true) "g.directory" [] ()).link
        = some l ∧
      (obt_link_unref (obt_link_ref (obt_link_ref l))).2 = false ∧
      (obt_link_unref (obt_link_unref (obt_link_ref (obt_link_ref l))).1).2 = false ∧
      (obt_link_unref (obt_link_unref (obt_link_ref (obt_link_ref l))).1).1.ref = 1 :=
  ⟨_, rfl, by decide, by decide, by decide⟩

/-- C14, amended: for every link the builder returns, after two
`obt_link_ref` the first `obt_link_unref` does not free it, the second does
not free it either and leaves it as it was built, with reference count 1, and
the third frees it. -/
theorem C14_balanced_refs_amended {ObtPaths : Type}
    (obt_ddparse_file : String → List String → Option Groups)
    (obt_paths_try_exec : ObtPaths → Option String → Bool)
    (ddname : String) (paths : List String) (p : ObtPaths) (l : ObtLink)
    (hlink : (obt_link_from_ddfile obt_ddparse_file obt_paths_try_exec ddname paths p).link
      = some l) :
    (obt_link_unref (obt_link_ref (obt_link_ref l))).2 = false ∧
    (obt_link_unref (obt_link_unref (obt_link_ref (obt_link_ref l))).1).2 = false ∧
    (obt_link_unref (obt_link_unref (obt_link_ref (obt_link_ref l))).1).1 = l ∧
    (obt_link_unref
      (obt_link_unref (obt_link_unref (obt_link_ref (obt_link_ref l))).1).1).2 = true := by
  have h := built_link_ref obt_ddparse_file obt_paths_try_exec ddname paths p l hlink
  have h32 : (2 : Nat) ^ 32 = 4294967296 := by norm_num
  cases l
  simp only at h
  subst h
  simp only [obt_link_unref, obt_link_ref, h32]
  norm_num

/-- C14, amended, at the application entry with `Exec = "/usr/bin/x"`. -/
theorem C14_balanced_refs_amended_witness :
    ∃ l : ObtLink,
      (obt_link_from_ddfile (parsed_as sample_app) (probe_const true) "x.desktop" [] ()).link
        = some l ∧
      (obt_link_unref (obt_link_unref (obt_link_ref (obt_link_ref l))).1).1 = l ∧
      (obt_link_unref
        (obt_link_unref (obt_link_unref (obt_link_ref (obt_link_ref l))).1).1).2 = true :=
  ⟨_, rfl,
    (C14_balanced_refs_amended (parsed_as sample_app) (probe_const true) "x.desktop" [] ()
      _ rfl).2.2⟩

/-- C15: for every link with reference count `n`, `1 ≤ n < 2 ^ 32`:
`obt_link_ref` (for `n < 2 ^ 32 - 1`) gives the same link with count `n + 1`
and frees nothing (it has no freeing path); `obt_link_unref` gives the same
link with count `n - 1` and frees it exactly when `n = 1`. Every other field
is left as it was. -/
theorem C15_ref_unref_frame (dd : ObtLink) (hlive : 1 ≤ dd.ref) (hguint : dd.ref < 2 ^ 32) :
    (dd.ref < 2 ^ 32 - 1 → obt_link_ref dd = { dd with ref := dd.ref + 1 }) ∧
    (obt_link_unref dd).1 = { dd with ref := dd.ref - 1 } ∧
    ((obt_link_unref dd).2 = true ↔ dd.ref = 1) := by
  have h32 : (2 : Nat) ^ 32 = 4294967296 := by norm_num
  have hdec : (dd.ref + 2 ^ 32 - 1) % 2 ^ 32 = dd.ref - 1 := by
    rw [h32] at hguint ⊢
    omega
  refine ⟨?_, ?_, ?_⟩
  · intro h
    have hinc : (dd.ref + 1) % 2 ^ 32 = dd.ref + 1 := by
      rw [h32] at h ⊢
      omega
    unfold obt_link_ref
    rw [hinc]
  · unfold obt_link_unref
    simp only
    rw [hdec]
  · unfold obt_link_unref
    simp only [hdec, decide_eq_true_eq]
    omega

/-- C15 at a link with reference count 2: `obt_link_ref` gives count 3,
`obt_link_unref` gives count 1 and does not free. -/
theorem C15_ref_unref_frame_witness :
    (obt_link_ref
        { ref := 2, type := OBT_LINK_TYPE_DIRECTORY, name := none, display := true,
          deleted := false, generic := some "Folder", comment := none, icon := none,
          env_required := 0, env_restricted := 0, d := ObtLinkData.dir }).ref = 3 ∧
    (obt_link_unref
        { ref := 2, type := OBT_LINK_TYPE_DIRECTORY, name := none, display := true,
          deleted := false, generic := some "Folder", comment := none, icon := none,
          env_required := 0, env_restricted := 0, d := ObtLinkData.dir }).1
      = { ref := 1, type := OBT_LINK_TYPE_DIRECTORY, name := none, display := true,
          deleted := false, generic := some "Folder", comment := none, icon := none,
          env_required := 0, env_restricted := 0, d := ObtLinkData.dir } :=
  ⟨congrArg ObtLink.ref
      ((C15_ref_unref_frame
        { ref := 2, type := OBT_LINK_TYPE_DIRECTORY, name := none, display := true,
          deleted := false, generic := some "Folder", comment := none, icon := none,
          env_required := 0, env_restricted := 0, d := ObtLinkData.dir }
        (by decide) (by decide)).1 (by decide)),
    (C15_ref_unref_frame
        { ref := 2, type := OBT_LINK_TYPE_DIRECTORY, name := none, display := true,
          deleted := false, generic := some "Folder", comment := none, icon := none,
          env_required := 0, env_restricted := 0, d := ObtLinkData.dir }
        (by decide) (by decide)).2.1⟩

/-! ## Keys that do not count -/

/-- The required keys decide whether a link is built: when a call on an entry
returns a link, a call on any entry whose "Desktop Entry" group agrees with
it on `Type`, `Name`, `Exec` and `URL` returns a link too, whatever the
probe, and that link is what `link_fill` makes of the second key table for
the same type value and the same target. -/
theorem build_on_other_keys {ObtPaths ObtPaths' : Type}
    (obt_ddparse_file : String → List String → Option Groups)
    (obt_paths_try_exec : ObtPaths → Option String → Bool)
    (ddname : String) (paths : List String) (p : ObtPaths) (groups : Groups)
    (g : ObtDDParseGroup) (l : ObtLink)
    (hparse : obt_ddparse_file ddname paths = some groups)
    (hgroup : g_hash_table_lookup groups "Desktop Entry" = some g)
    (hlink : (obt_link_from_ddfile obt_ddparse_file obt_paths_try_exec ddname paths p).link
      = some l)
    (obt_ddparse_file' : String → List String → Option Groups)
    (probe' : ObtPaths' → Option String → Bool)
    (ddname' : String) (paths' : List String) (p' : ObtPaths') (groups' : Groups)
    (g' : ObtDDParseGroup)
    (hparse' : obt_ddparse_file' ddname' paths' = some groups')
    (hgroup' : g_hash_table_lookup groups' "Desktop Entry" = some g')
    (hT : g_hash_table_lookup (obt_ddparse_group_keys g') "Type"
      = g_hash_table_lookup (obt_ddparse_group_keys g) "Type")
    (hN : g_hash_table_lookup (obt_ddparse_group_keys g') "Name"
      = g_hash_table_lookup (obt_ddparse_group_keys g) "Name")
    (hE : g_hash_table_lookup (obt_ddparse_group_keys g') "Exec"
      = g_hash_table_lookup (obt_ddparse_group_keys g) "Exec")
    (hU : g_hash_table_lookup (obt_ddparse_group_keys g') "URL"
      = g_hash_table_lookup (obt_ddparse_group_keys g) "URL") :
    ∃ (type : ObtDDParseValue) (target : Option ObtDDParseValue),
      g_hash_table_lookup (obt_ddparse_group_keys g) "Type" = some type ∧
      l.type = type.enumerable ∧
      l = (link_fill obt_paths_try_exec p (obt_ddparse_group_keys g) type target).1 ∧
      obt_link_from_ddfile obt_ddparse_file' probe' ddname' paths' p'
        = { link := some (link_fill probe' p' (obt_ddparse_group_keys g') type target).1,
            groups := some (store_keys groups' "Desktop Entry"
              (link_fill probe' p' (obt_ddparse_group_keys g') type target).2),
            destroyed := false } := by
  obtain ⟨type, hType, hName, hExec, hUrl, hl⟩ := link_of_build obt_ddparse_file
    obt_paths_try_exec ddname paths p groups g l hparse hgroup hlink
  obtain ⟨name, hname⟩ := Option.ne_none_iff_exists'.mp hName
  have hty : l.type = type.enumerable := by rw [hl, link_fill_type]
  by_cases happ : type.enumerable = OBT_LINK_TYPE_APPLICATION
  · obtain ⟨target, ht⟩ := Option.ne_none_iff_exists'.mp (hExec happ)
    exact ⟨type, some target, hType, hty, by rw [hl]; simp [happ, ht],
      build_application obt_ddparse_file' probe' ddname' paths' p' groups' g' type name target
        hparse' hgroup' (hT.trans hType) (hN.trans hname) happ (hE.trans ht)⟩
  · by_cases hurl : type.enumerable = OBT_LINK_TYPE_URL
    · obtain ⟨target, ht⟩ := Option.ne_none_iff_exists'.mp (hUrl hurl)
      exact ⟨type, some target, hType, hty, by rw [hl]; simp [happ, hurl, ht],
        build_url obt_ddparse_file' probe' ddname' paths' p' groups' g' type name target
          hparse' hgroup' (hT.trans hType) (hN.trans hname) hurl (hU.trans ht)⟩
    · exact ⟨type, none, hType, hty, by rw [hl]; simp [happ, hurl],
        build_other obt_ddparse_file' probe' ddname' paths' p' groups' g' type name
          hparse' hgroup' (hT.trans hType) (hN.trans hname) happ hurl⟩

/-- For a link that is not an application, the link does not depend on the
probe nor on `TryExec`, `Path`, `Terminal` and `StartupNotify`. -/
theorem link_fill_not_application {ObtPaths ObtPaths' : Type}
    (obt_paths_try_exec : ObtPaths → Option String → Bool) (p : ObtPaths)
    (probe' : ObtPaths' → Option String → Bool) (p' : ObtPaths')
    (keys : GHashTable ObtDDParseValue) (type : ObtDDParseValue)
    (target : Option ObtDDParseValue)
    (happ : type.enumerable ≠ OBT_LINK_TYPE_APPLICATION) :
    (link_fill probe' p'
      (fun k => if k = "StartupNotify" then none else if k = "Terminal" then none
        else if k = "Path" then none else if k = "TryExec" then none else keys k)
      type target).1
      = (link_fill obt_paths_try_exec p keys type target).1 := by
  by_cases hurl : type.enumerable = OBT_LINK_TYPE_URL <;>
    simp [link_fill, happ, hurl] <;> simp [g_hash_table_lookup]

/-- The group "Desktop Entry" of the entry without `TryExec`, `Path`,
`Terminal` and `StartupNotify`. -/
theorem lookup_without_application_keys (groups : Groups) (g : ObtDDParseGroup)
    (hgroup : g_hash_table_lookup groups "Desktop Entry" = some g) :
    g_hash_table_lookup
      (remove_key (remove_key (remove_key (remove_key groups "Desktop Entry" "TryExec")
        "Desktop Entry" "Path") "Desktop Entry" "Terminal") "Desktop Entry" "StartupNotify")
      "Desktop Entry"
      = some { key_hash := fun k =>
          if k = "StartupNotify" then none else if k = "Terminal" then none
          else if k = "Path" then none else if k = "TryExec" then none
          else obt_ddparse_group_keys g k } := by
  simp [hgroup, obt_ddparse_group_keys]

/-- C16: the keys read for applications only do not count for the others.
For every Url or Directory entry on which the builder returns a link `l`:
`display` is the negation of "`NoDisplay` is present and true"; the same link
is returned whatever the probe; the entry without `TryExec`, `Path`,
`Terminal` and `StartupNotify` gives the same link, whatever the probe; and
after the call the entry's `Path` is as before. -/
theorem C16_application_only_keys {ObtPaths : Type}
    (obt_ddparse_file : String → List String → Option Groups)
    (obt_paths_try_exec : ObtPaths → Option String → Bool)
    (ddname : String) (paths : List String) (p : ObtPaths) (groups : Groups)
    (g : ObtDDParseGroup) (l : ObtLink)
    (hparse : obt_ddparse_file ddname paths = some groups)
    (hgroup : g_hash_table_lookup groups "Desktop Entry" = some g)
    (hlink : (obt_link_from_ddfile obt_ddparse_file obt_paths_try_exec ddname paths p).link
      = some l)
    (hkind : l.type = OBT_LINK_TYPE_URL ∨ l.type = OBT_LINK_TYPE_DIRECTORY) :
    l.display = (match g_hash_table_lookup (obt_ddparse_group_keys g) "NoDisplay" with
      | some v => !v.boolean
      | none => true) ∧
    (∀ (ObtPaths' : Type) (probe' : ObtPaths' → Option String → Bool) (p' : ObtPaths'),
      (obt_link_from_ddfile obt_ddparse_file probe' ddname paths p').link = some l) ∧
    (∀ (ObtPaths' : Type) (probe' : ObtPaths' → Option String → Bool) (p' : ObtPaths'),
      (obt_link_from_ddfile
        (parsed_as (remove_key (remove_key (remove_key (remove_key groups
          "Desktop Entry" "TryExec") "Desktop Entry" "Path") "Desktop Entry" "Terminal")
          "Desktop Entry" "StartupNotify"))
        probe' ddname paths p').link = some l) ∧
    (∃ g' : ObtDDParseGroup,
      (obt_link_from_ddfile obt_ddparse_file obt_paths_try_exec ddname paths p).groups.bind
        (fun groups' => g_hash_table_lookup groups' "Desktop Entry") = some g' ∧
      g_hash_table_lookup (obt_ddparse_group_keys g') "Path"
        = g_hash_table_lookup (obt_ddparse_group_keys g) "Path") := by
  obtain ⟨type, target, _, hty, hl, _, _, hout⟩ := outcome_of_build obt_ddparse_file
    obt_paths_try_exec ddname paths p groups g l hparse hgroup hlink
  have happ : type.enumerable ≠ OBT_LINK_TYPE_APPLICATION := by
    rw [← hty]
    rcases hkind with h | h <;> rw [h] <;> decide
  refine ⟨?_, ?_, ?_, ?_⟩
  · rw [hl, link_fill_display]
    simp [happ]
  · intro P' probe' p'
    obtain ⟨type', target', _, hty', hl', hbuild⟩ := build_on_other_keys obt_ddparse_file
      obt_paths_try_exec ddname paths p groups g l hparse hgroup hlink
      obt_ddparse_file probe' ddname paths p' groups g hparse hgroup rfl rfl rfl rfl
    rw [hbuild]
    have happ' : type'.enumerable ≠ OBT_LINK_TYPE_APPLICATION := by
      rw [← hty', hty]; exact happ
    simp only [Option.some.injEq]
    rw [hl', ← link_fill_not_application probe' p' probe' p' _ type' target' happ',
      ← link_fill_not_application obt_paths_try_exec p probe' p' _ type' target' happ']
  · intro P' probe' p'
    obtain ⟨type', target', _, hty', hl', hbuild⟩ := build_on_other_keys obt_ddparse_file
      obt_paths_try_exec ddname paths p groups g l hparse hgroup hlink
      (parsed_as (remove_key (remove_key (remove_key (remove_key groups
          "Desktop Entry" "TryExec") "Desktop Entry" "Path") "Desktop Entry" "Terminal")
          "Desktop Entry" "StartupNotify"))
      probe' ddname paths p' _ _ rfl (lookup_without_application_keys groups g hgroup)
      rfl rfl rfl rfl
    have happ' : type'.enumerable ≠ OBT_LINK_TYPE_APPLICATION := by
      rw [← hty', hty]; exact happ
    rw [hbuild]
    simp only [Option.some.injEq]
    rw [hl']
    exact link_fill_not_application obt_paths_try_exec p probe' p' _ type' target' happ'
  · refine ⟨{ key_hash := (link_fill obt_paths_try_exec p (obt_ddparse_group_keys g) type
      target).2 }, by rw [hout]; simp [hgroup], ?_⟩
    show g_hash_table_lookup (link_fill _ _ _ _ _).2 _ = _
    rw [link_fill_snd_lookup]
    simp [happ]

/-- C16 at the URL entry that holds `TryExec = "nonexistent"`, `Path`,
`Terminal` and `StartupNotify`, with a probe that finds nothing: the link is
displayed, and the entry without the four keys gives the same link with a
probe that finds everything. -/
theorem C16_application_only_keys_witness :
    ∃ l : ObtLink,
      (obt_link_from_ddfile (parsed_as sample_url_app_keys) (probe_const false)
        "e.desktop" [] ()).link = some l ∧
      l.display = true ∧
      (obt_link_from_ddfile
        (parsed_as (remove_key (remove_key (remove_key (remove_key sample_url_app_keys
          "Desktop Entry" "TryExec") "Desktop Entry" "Path") "Desktop Entry" "Terminal")
          "Desktop Entry" "StartupNotify"))
        (probe_const true) "e.desktop" [] ()).link = some l :=
  ⟨_, rfl,
    (C16_application_only_keys (parsed_as sample_url_app_keys) (probe_const false)
      "e.desktop" [] () sample_url_app_keys _ _ rfl rfl rfl (Or.inl rfl)).1,
    (C16_application_only_keys (parsed_as sample_url_app_keys) (probe_const false)
      "e.desktop" [] () sample_url_app_keys _ _ rfl rfl rfl (Or.inl rfl)).2.2.1
      Unit (probe_const true) ()⟩

/-! ## Optional strings, `Hidden` and the environments -/

/-- C17, as stated, fails: at the application entry whose `Comment` is the
empty string the builder returns a link whose `comment` is the empty string,
present and empty, not `NULL`. -/
theorem C17_empty_comment_is_stored :
    g_hash_table_lookup (keys_of [("Type", enum_value OBT_LINK_TYPE_APPLICATION),
      ("Name", str_value "X"), ("Exec", str_value "/usr/bin/x"),
      ("Comment", str_value "")]) "Comment" = some (str_value "") ∧
    ∃ l : ObtLink,
      (obt_link_from_ddfile (parsed_as sample_empty_comment) (probe_const true)
        "x.desktop" [] ()).link = some l ∧
      l.comment = some "" ∧ l.comment ≠ none :=
  ⟨rfl, _, rfl, rfl, by decide⟩

/-- C17, amended: for every entry on which the builder returns a link, each
optional string of the link (`generic`, `comment`, `icon`, and `d.app.wdir`
of an application) is `NULL` when its key is absent and otherwise exactly the
string the entry held under the key, stored as it is, the empty string
included; so it is not the empty string whenever the entry does not hold the
empty string under that key. -/
theorem C17_optional_strings_amended {ObtPaths : Type}
    (obt_ddparse_file : String → List String → Option Groups)
    (obt_paths_try_exec : ObtPaths → Option String → Bool)
    (ddname : String) (paths : List String) (p : ObtPaths) (groups : Groups)
    (g : ObtDDParseGroup) (l : ObtLink)
    (hparse : obt_ddparse_file ddname paths = some groups)
    (hgroup : g_hash_table_lookup groups "Desktop Entry" = some g)
    (hlink : (obt_link_from_ddfile obt_ddparse_file obt_paths_try_exec ddname paths p).link
      = some l) :
    (l.generic
        = (g_hash_table_lookup (obt_ddparse_group_keys g) "GenericName").bind
            (fun v => v.string) ∧
      l.comment
        = (g_hash_table_lookup (obt_ddparse_group_keys g) "Comment").bind
            (fun v => v.string) ∧
      l.icon
        = (g_hash_table_lookup (obt_ddparse_group_keys g) "Icon").bind
            (fun v => v.string) ∧
      (∀ a : ObtLinkApp, l.d = ObtLinkData.app a →
        a.wdir = (g_hash_table_lookup (obt_ddparse_group_keys g) "Path").bind
          (fun v => v.string))) ∧
    ((∀ v : ObtDDParseValue,
        g_hash_table_lookup (obt_ddparse_group_keys g) "GenericName" = some v →
        v.string ≠ some "") → l.generic ≠ some "") ∧
    ((∀ v : ObtDDParseValue,
        g_hash_table_lookup (obt_ddparse_group_keys g) "Comment" = some v →
        v.string ≠ some "") → l.comment ≠ some "") ∧
    ((∀ v : ObtDDParseValue,
        g_hash_table_lookup (obt_ddparse_group_keys g) "Icon" = some v →
        v.string ≠ some "") → l.icon ≠ some "") ∧
    ((∀ v : ObtDDParseValue,
        g_hash_table_lookup (obt_ddparse_group_keys g) "Path" = some v →
        v.string ≠ some "") →
      ∀ a : ObtLinkApp, l.d = ObtLinkData.app a → a.wdir ≠ some "") := by
  obtain ⟨type, target, _, hty, hl, _, _, _⟩ := outcome_of_build obt_ddparse_file
    obt_paths_try_exec ddname paths p groups g l hparse hgroup hlink
  obtain ⟨_, _, hgen, hcom, hico, _, _⟩ := link_fill_common obt_paths_try_exec p
    (obt_ddparse_group_keys g) type target
  have hwdir : ∀ a : ObtLinkApp, l.d = ObtLinkData.app a →
      a.wdir = (g_hash_table_lookup (obt_ddparse_group_keys g) "Path").bind
        (fun v => v.string) := by
    intro a ha
    by_cases happ : type.enumerable = OBT_LINK_TYPE_APPLICATION
    · rw [hl, link_fill_d_application obt_paths_try_exec p _ type target happ] at ha
      simp only [ObtLinkData.app.injEq] at ha
      rw [← ha]
    · by_cases hurl : type.enumerable = OBT_LINK_TYPE_URL
      · rw [hl, link_fill_d_url obt_paths_try_exec p _ type target hurl] at ha
        exact absurd ha (by simp)
      · rw [hl, link_fill_d_other obt_paths_try_exec p _ type target happ hurl] at ha
        exact absurd ha (by simp)
  have key : ∀ (o : Option ObtDDParseValue),
      (∀ v : ObtDDParseValue, o = some v → v.string ≠ some "") →
      o.bind (fun v => v.string) ≠ some "" := by
    intro o ho
    cases o with
    | none => simp
    | some v => simpa using ho v rfl
  rw [← hl] at hgen hcom hico
  refine ⟨⟨hgen, hcom, hico, hwdir⟩, ?_, ?_, ?_, ?_⟩
  · intro h; rw [hgen]; exact key _ h
  · intro h; rw [hcom]; exact key _ h
  · intro h; rw [hico]; exact key _ h
  · intro h a ha; rw [hwdir a ha]; exact key _ h

/-- C17, amended, at the application entry with `GenericName = "Viewer"`:
the link holds that string. -/
theorem C17_optional_strings_amended_witness :
    ∃ l : ObtLink,
      (obt_link_from_ddfile (parsed_as sample_full_app) (probe_const true)
        "x.desktop" [] ()).link = some l ∧
      l.generic = some "Viewer" :=
  ⟨_, rfl,
    (C17_optional_strings_amended (parsed_as sample_full_app) (probe_const true)
      "x.desktop" [] () sample_full_app _ _ rfl rfl rfl).1.1⟩

/-- C18: for every entry on which the builder returns a link, `deleted` is
false when `Hidden` is absent and the boolean of `Hidden` when it is present.
It depends on nothing else: any other call that returns a link, on any entry
and with any probe, gives the same `deleted` as soon as the two entries agree
on `Hidden`, whatever `NoDisplay`, `TryExec` and the probe are. -/
theorem C18_deleted_from_hidden {ObtPaths : Type}
    (obt_ddparse_file : String → List String → Option Groups)
    (obt_paths_try_exec : ObtPaths → Option String → Bool)
    (ddname : String) (paths : List String) (p : ObtPaths) (groups : Groups)
    (g : ObtDDParseGroup) (l : ObtLink)
    (hparse : obt_ddparse_file ddname paths = some groups)
    (hgroup : g_hash_table_lookup groups "Desktop Entry" = some g)
    (hlink : (obt_link_from_ddfile obt_ddparse_file obt_paths_try_exec ddname paths p).link
      = some l) :
    (g_hash_table_lookup (obt_ddparse_group_keys g) "Hidden" = none → l.deleted = false) ∧
    (∀ v : ObtDDParseValue,
      g_hash_table_lookup (obt_ddparse_group_keys g) "Hidden" = some v →
      l.deleted = v.boolean) ∧
    (∀ (ObtPaths' : Type) (obt_ddparse_file' : String → List String → Option Groups)
      (probe' : ObtPaths' → Option String → Bool) (ddname' : String) (paths' : List String)
      (p' : ObtPaths') (groups' : Groups) (g' : ObtDDParseGroup) (l' : ObtLink),
      obt_ddparse_file' ddname' paths' = some groups' →
      g_hash_table_lookup groups' "Desktop Entry" = some g' →
      (obt_link_from_ddfile obt_ddparse_file' probe' ddname' paths' p').link = some l' →
      g_hash_table_lookup (obt_ddparse_group_keys g') "Hidden"
        = g_hash_table_lookup (obt_ddparse_group_keys g) "Hidden" →
      l'.deleted = l.deleted) := by
  have closed : ∀ (Q : Type) (parse : String → List String → Option Groups)
      (probe : Q → Option String → Bool) (dn : String) (ps : List String) (q : Q)
      (gs : Groups) (gr : ObtDDParseGroup) (lk : ObtLink),
      parse dn ps = some gs → g_hash_table_lookup gs "Desktop Entry" = some gr →
      (obt_link_from_ddfile parse probe dn ps q).link = some lk →
      lk.deleted = (match g_hash_table_lookup (obt_ddparse_group_keys gr) "Hidden" with
        | some v => v.boolean
        | none => false) := by
    intro Q parse probe dn ps q gs gr lk h1 h2 h3
    obtain ⟨type, target, _, _, hl, _, _, _⟩ := outcome_of_build parse probe dn ps q gs gr lk
      h1 h2 h3
    rw [hl]
    exact (link_fill_common probe q _ type target).2.1
  have hd := closed ObtPaths obt_ddparse_file obt_paths_try_exec ddname paths p groups g l
    hparse hgroup hlink
  refine ⟨?_, ?_, ?_⟩
  · intro h; rw [hd, h]
  · intro v h; rw [hd, h]
  · intro Q parse probe dn ps q gs gr lk h1 h2 h3 hsame
    rw [hd, closed Q parse probe dn ps q gs gr lk h1 h2 h3, hsame]

/-- C18 at the application entry with `Hidden = true`, `NoDisplay = false`
and a `TryExec` the probe does not find: the link is deleted. -/
theorem C18_deleted_from_hidden_witness :
    ∃ l : ObtLink,
      (obt_link_from_ddfile (parsed_as sample_hidden) (probe_const false)
        "x.desktop" [] ()).link = some l ∧
      l.deleted = true :=
  ⟨_, rfl,
    (C18_deleted_from_hidden (parsed_as sample_hidden) (probe_const false)
      "x.desktop" [] () sample_hidden _ _ rfl rfl rfl).2.1 (bool_value true) rfl⟩

/-- The link built without `OnlyShowIn` is the link with `env_required`
zeroed, and the link built without `NotShowIn` is the link with
`env_restricted` zeroed. -/
theorem link_fill_without_env_key {ObtPaths : Type}
    (obt_paths_try_exec : ObtPaths → Option String → Bool) (p : ObtPaths)
    (keys : GHashTable ObtDDParseValue) (type : ObtDDParseValue)
    (target : Option ObtDDParseValue) :
    (link_fill obt_paths_try_exec p
        (fun k' => if k' = "OnlyShowIn" then none else keys k') type target).1
      = { (link_fill obt_paths_try_exec p keys type target).1 with env_required := 0 } ∧
    (link_fill obt_paths_try_exec p
        (fun k' => if k' = "NotShowIn" then none else keys k') type target).1
      = { (link_fill obt_paths_try_exec p keys type target).1 with env_restricted := 0 } := by
  by_cases happ : type.enumerable = OBT_LINK_TYPE_APPLICATION
  · constructor <;> simp [link_fill, happ] <;> simp [g_hash_table_lookup]
  · by_cases hurl : type.enumerable = OBT_LINK_TYPE_URL <;> constructor <;>
      simp [link_fill, happ, hurl] <;> simp [g_hash_table_lookup]

/-- C19: for every entry on which the builder returns a link `l`,
`env_required` is the environments of `OnlyShowIn` when that key is present
and 0 otherwise, and `env_restricted` is the environments of `NotShowIn` when
that key is present and 0 otherwise. Each key counts for its own field only:
the entry without `OnlyShowIn` gives `l` with `env_required` zeroed and the
entry without `NotShowIn` gives `l` with `env_restricted` zeroed, every other
field, `display` included, being the same. -/
theorem C19_environments {ObtPaths : Type}
    (obt_ddparse_file : String → List String → Option Groups)
    (obt_paths_try_exec : ObtPaths → Option String → Bool)
    (ddname : String) (paths : List String) (p : ObtPaths) (groups : Groups)
    (g : ObtDDParseGroup) (l : ObtLink)
    (hparse : obt_ddparse_file ddname paths = some groups)
    (hgroup : g_hash_table_lookup groups "Desktop Entry" = some g)
    (hlink : (obt_link_from_ddfile obt_ddparse_file obt_paths_try_exec ddname paths p).link
      = some l) :
    (g_hash_table_lookup (obt_ddparse_group_keys g) "OnlyShowIn" = none →
      l.env_required = 0) ∧
    (∀ v : ObtDDParseValue,
      g_hash_table_lookup (obt_ddparse_group_keys g) "OnlyShowIn" = some v →
      l.env_required = v.environments) ∧
    (g_hash_table_lookup (obt_ddparse_group_keys g) "NotShowIn" = none →
      l.env_restricted = 0) ∧
    (∀ v : ObtDDParseValue,
      g_hash_table_lookup (obt_ddparse_group_keys g) "NotShowIn" = some v →
      l.env_restricted = v.environments) ∧
    (obt_link_from_ddfile (parsed_as (remove_key groups "Desktop Entry" "OnlyShowIn"))
      obt_paths_try_exec ddname paths p).link = some { l with env_required := 0 } ∧
    (obt_link_from_ddfile (parsed_as (remove_key groups "Desktop Entry" "NotShowIn"))
      obt_paths_try_exec ddname paths p).link = some { l with env_restricted := 0 } := by
  obtain ⟨type, target, _, _, hl, _, _, _⟩ := outcome_of_build obt_ddparse_file
    obt_paths_try_exec ddname paths p groups g l hparse hgroup hlink
  obtain ⟨_, _, _, _, _, hreq, hres⟩ := link_fill_common obt_paths_try_exec p
    (obt_ddparse_group_keys g) type target
  rw [← hl] at hreq hres
  refine ⟨?_, ?_, ?_, ?_, ?_, ?_⟩
  · intro h; rw [hreq, h]
  · intro v h; rw [hreq, h]
  · intro h; rw [hres, h]
  · intro v h; rw [hres, h]
  · obtain ⟨type', target', _, _, hl', hbuild⟩ := build_on_other_keys obt_ddparse_file
      obt_paths_try_exec ddname paths p groups g l hparse hgroup hlink
      (parsed_as (remove_key groups "Desktop Entry" "OnlyShowIn")) obt_paths_try_exec
      ddname paths p _
      { key_hash := fun k' => if k' = "OnlyShowIn" then none else g.key_hash k' }
      rfl (by simp [hgroup]) rfl rfl rfl rfl
    rw [hbuild, hl']
    exact congrArg some
      (link_fill_without_env_key obt_paths_try_exec p _ type' target').1
  · obtain ⟨type', target', _, _, hl', hbuild⟩ := build_on_other_keys obt_ddparse_file
      obt_paths_try_exec ddname paths p groups g l hparse hgroup hlink
      (parsed_as (remove_key groups "Desktop Entry" "NotShowIn")) obt_paths_try_exec
      ddname paths p _
      { key_hash := fun k' => if k' = "NotShowIn" then none else g.key_hash k' }
      rfl (by simp [hgroup]) rfl rfl rfl rfl
    rw [hbuild, hl']
    exact congrArg some
      (link_fill_without_env_key obt_paths_try_exec p _ type' target').2

/-- C19 at the directory entry with `OnlyShowIn` = 5 and `NotShowIn` = 2. -/
theorem C19_environments_witness :
    ∃ l : ObtLink,
      (obt_link_from_ddfile (parsed_as sample_env) (probe_const true)
        "g.directory" [] ()).link = some l ∧
      l.env_required = 5 ∧ l.env_restricted = 2 :=
  ⟨_, rfl,
    (C19_environments (parsed_as sample_env) (probe_const true) "g.directory" [] ()
      sample_env _ _ rfl rfl rfl).2.1 (env_value 5) rfl,
    (C19_environments (parsed_as sample_env) (probe_const true) "g.directory" [] ()
      sample_env _ _ rfl rfl rfl).2.2.2.1 (env_value 2) rfl⟩

/-! ## The frame on the parsed entry -/

/-- A call that returns `NULL` on a parsed entry leaves the table as the
parser made it, and destroys it: every failure is decided before any store. -/
theorem failed_outcome {ObtPaths : Type}
    (obt_ddparse_file : String → List String → Option Groups)
    (obt_paths_try_exec : ObtPaths → Option String → Bool)
    (ddname : String) (paths : List String) (p : ObtPaths) (groups : Groups)
    (hparse : obt_ddparse_file ddname paths = some groups)
    (hnull : (obt_link_from_ddfile obt_ddparse_file obt_paths_try_exec ddname paths p).link
      = none) :
    obt_link_from_ddfile obt_ddparse_file obt_paths_try_exec ddname paths p
      = { link := none, groups := some groups, destroyed := true } := by
  cases hG : g_hash_table_lookup groups "Desktop Entry" with
  | none => simp [obt_link_from_ddfile, hparse, hG]
  | some g =>
    cases hT : g_hash_table_lookup (obt_ddparse_group_keys g) "Type" with
    | none => simp [obt_link_from_ddfile, hparse, hG, hT]
    | some type =>
      cases hN : g_hash_table_lookup (obt_ddparse_group_keys g) "Name" with
      | none => simp [obt_link_from_ddfile, hparse, hG, hT, hN]
      | some name =>
        by_cases happ : type.enumerable = OBT_LINK_TYPE_APPLICATION
        · cases hE : g_hash_table_lookup (obt_ddparse_group_keys g) "Exec" with
          | none => simp [obt_link_from_ddfile, hparse, hG, hT, hN, happ, hE]
          | some target =>
            rw [build_application obt_ddparse_file obt_paths_try_exec ddname paths p groups g
              type name target hparse hG hT hN happ hE] at hnull
            exact absurd hnull (by simp)
        · by_cases hurl : type.enumerable = OBT_LINK_TYPE_URL
          · cases hU : g_hash_table_lookup (obt_ddparse_group_keys g) "URL" with
            | none => simp [obt_link_from_ddfile, hparse, hG, hT, hN, hurl, hU]
            | some target =>
              rw [build_url obt_ddparse_file obt_paths_try_exec ddname paths p groups g
                type name target hparse hG hT hN hurl hU] at hnull
              exact absurd hnull (by simp)
          · rw [build_other obt_ddparse_file obt_paths_try_exec ddname paths p groups g
              type name hparse hG hT hN happ hurl] at hnull
            exact absurd hnull (by simp)

/-- C20: the builder changes the parsed entry at the strings it relocates
and nowhere else. When it returns `NULL` the table is as the parser made it
(no string was taken before the failure was decided). When it returns a link
`l`, every group but "Desktop Entry" is unchanged, and in "Desktop Entry" a
key is unchanged unless it is `GenericName`, `Comment`, `Icon`, or `Exec` or
`Path` for an application, or `URL` for a URL, where the value keeps every
member but its string, which is `NULL`. So `Name`, `Type` and `TryExec` are
unchanged, and so is an `Exec` or a `URL` that is not the key of the link's
type. -/
theorem C20_frame_on_entry {ObtPaths : Type}
    (obt_ddparse_file : String → List String → Option Groups)
    (obt_paths_try_exec : ObtPaths → Option String → Bool)
    (ddname : String) (paths : List String) (p : ObtPaths) (groups : Groups)
    (hparse : obt_ddparse_file ddname paths = some groups) :
    ((obt_link_from_ddfile obt_ddparse_file obt_paths_try_exec ddname paths p).link = none →
      (obt_link_from_ddfile obt_ddparse_file obt_paths_try_exec ddname paths p).groups
        = some groups) ∧
    (∀ (g : ObtDDParseGroup) (l : ObtLink),
      g_hash_table_lookup groups "Desktop Entry" = some g →
      (obt_link_from_ddfile obt_ddparse_file obt_paths_try_exec ddname paths p).link = some l →
      ∃ (groups' : Groups) (g' : ObtDDParseGroup),
        (obt_link_from_ddfile obt_ddparse_file obt_paths_try_exec ddname paths p).groups
          = some groups' ∧
        (∀ n : String, n ≠ "Desktop Entry" →
          g_hash_table_lookup groups' n = g_hash_table_lookup groups n) ∧
        g_hash_table_lookup groups' "Desktop Entry" = some g' ∧
        (∀ k : String,
          g_hash_table_lookup (obt_ddparse_group_keys g') k
            = if k = "GenericName" ∨ k = "Comment" ∨ k = "Icon" ∨
                (l.type = OBT_LINK_TYPE_APPLICATION ∧ (k = "Exec" ∨ k = "Path")) ∨
                (l.type = OBT_LINK_TYPE_URL ∧ k = "URL")
              then (g_hash_table_lookup (obt_ddparse_group_keys g) k).map
                (fun v => { v with string := none })
              else g_hash_table_lookup (obt_ddparse_group_keys g) k) ∧
        g_hash_table_lookup (obt_ddparse_group_keys g') "Name"
          = g_hash_table_lookup (obt_ddparse_group_keys g) "Name" ∧
        g_hash_table_lookup (obt_ddparse_group_keys g') "Type"
          = g_hash_table_lookup (obt_ddparse_group_keys g) "Type" ∧
        g_hash_table_lookup (obt_ddparse_group_keys g') "TryExec"
          = g_hash_table_lookup (obt_ddparse_group_keys g) "TryExec" ∧
        (l.type ≠ OBT_LINK_TYPE_APPLICATION →
          g_hash_table_lookup (obt_ddparse_group_keys g') "Exec"
            = g_hash_table_lookup (obt_ddparse_group_keys g) "Exec") ∧
        (l.type ≠ OBT_LINK_TYPE_URL →
          g_hash_table_lookup (obt_ddparse_group_keys g') "URL"
            = g_hash_table_lookup (obt_ddparse_group_keys g) "URL")) := by
  constructor
  · intro hnull
    rw [failed_outcome obt_ddparse_file obt_paths_try_exec ddname paths p groups hparse hnull]
  · intro g l hgroup hlink
    obtain ⟨type, target, _, hty, _, _, _, hout⟩ := outcome_of_build obt_ddparse_file
      obt_paths_try_exec ddname paths p groups g l hparse hgroup hlink
    have hkeys : ∀ k : String,
        g_hash_table_lookup (obt_ddparse_group_keys
            { key_hash := (link_fill obt_paths_try_exec p (obt_ddparse_group_keys g) type
              target).2 }) k
          = if k = "GenericName" ∨ k = "Comment" ∨ k = "Icon" ∨
              (l.type = OBT_LINK_TYPE_APPLICATION ∧ (k = "Exec" ∨ k = "Path")) ∨
              (l.type = OBT_LINK_TYPE_URL ∧ k = "URL")
            then (g_hash_table_lookup (obt_ddparse_group_keys g) k).map
              (fun v => { v with string := none })
            else g_hash_table_lookup (obt_ddparse_group_keys g) k := by
      intro k
      rw [hty]
      exact link_fill_snd_lookup obt_paths_try_exec p (obt_ddparse_group_keys g) type target k
    refine ⟨_, _, by rw [hout], ?_, by simp [hgroup], hkeys, ?_, ?_, ?_, ?_, ?_⟩
    · intro n hn
      simp [hn]
    · rw [hkeys]; simp
    · rw [hkeys]; simp
    · rw [hkeys]; simp
    · intro h; rw [hkeys]; simp [h]
    · intro h; rw [hkeys]; simp [h]

/-- C20 at the URL entry that also holds `Exec`, `Path` and `TryExec`: after
the call `Exec` still holds "/usr/bin/x", which is not the key of a URL. -/
theorem C20_frame_on_entry_witness :
    ∃ (l : ObtLink) (groups' : Groups) (g' : ObtDDParseGroup),
      (obt_link_from_ddfile (parsed_as sample_url_app_keys) (probe_const true)
        "e.desktop" [] ()).link = some l ∧
      (obt_link_from_ddfile (parsed_as sample_url_app_keys) (probe_const true)
        "e.desktop" [] ()).groups = some groups' ∧
      g_hash_table_lookup groups' "Desktop Entry" = some g' ∧
      g_hash_table_lookup (obt_ddparse_group_keys g') "Exec" = some (str_value "/usr/bin/x") :=
  match (C20_frame_on_entry (parsed_as sample_url_app_keys) (probe_const true)
      "e.desktop" [] () sample_url_app_keys rfl).2 _ _ rfl rfl with
  | ⟨groups', g', hgroups, _, hg', _, _, _, _, hexec, _⟩ =>
    ⟨_, groups', g', rfl, hgroups, hg', (hexec (by decide)).trans rfl⟩
